import Mathlib

/-
  Verification development for the Learn2Card backend (Python).

  The Python sources under `backend/` are shallowly embedded below:
  pure functions become Lean functions, raising code returns `Except`,
  Python `dict`s become association lists or records, and floating-point
  vector arithmetic is modelled over the real numbers.  Each namespace
  corresponds to one Python module:

  * `L2c`    — `backend/learn2cards/pipeline.py` and `backend/learn2cards/validate.py`
  * `AgPkg`  — the `backend/agent_a/` package (`segmenter.py`, `cards.py`,
               `keypoints.py`, `text_utils.py`, `cluster.py`)
  * `AgOne`  — the single-file variant `backend/agent_a.py`
  * `MainPy` — `backend/main.py`

  `PyStr` holds small character/string helpers mirroring the Python string
  methods and the (very small) regular expressions used by the sources.
-/

set_option maxHeartbeats 2000000
set_option maxRecDepth 20000

namespace PyStr

/-- Python `\s` for the character sets appearing in these sources
(space, tab, newline, carriage return, vertical tab, form feed). -/
def isSpaceChar (c : Char) : Bool :=
  c = ' ' || c = '\t' || c = '\n' || c = '\r' || c.toNat = 11 || c.toNat = 12

def lstripL (cs : List Char) : List Char := cs.dropWhile isSpaceChar

def rstripL (cs : List Char) : List Char := (cs.reverse.dropWhile isSpaceChar).reverse

/-- Python `str.strip()`. -/
def stripL (cs : List Char) : List Char := rstripL (lstripL cs)

def strip (s : String) : String := ⟨stripL s.data⟩

def rstripS (s : String) : String := ⟨rstripL s.data⟩

/-- Python `str.split(sep)` for a single separator character. -/
def splitOnCharL (sep : Char) : List Char → List (List Char)
  | [] => [[]]
  | c :: cs =>
    match splitOnCharL sep cs with
    | [] => [[c]]
    | r :: rs => if c = sep then [] :: r :: rs else (c :: r) :: rs

/-- `text.replace("\r\n", "\n").replace("\r", "\n")`. -/
def normNewlinesL : List Char → List Char
  | [] => []
  | '\r' :: '\n' :: cs => '\n' :: normNewlinesL cs
  | '\r' :: cs => '\n' :: normNewlinesL cs
  | c :: cs => c :: normNewlinesL cs

/-- `re.sub(r"\s+", " ", s)`: collapse every whitespace run to one space. -/
def collapseWsAux : Bool → List Char → List Char
  | _, [] => []
  | prevSpace, c :: cs =>
    if isSpaceChar c then
      if prevSpace then collapseWsAux true cs else ' ' :: collapseWsAux true cs
    else c :: collapseWsAux false cs

def collapseWsL (cs : List Char) : List Char := collapseWsAux false cs

/-- ASCII lowercasing (the inputs considered here are ASCII/CJK). -/
def lowerChar (c : Char) : Char :=
  if 65 ≤ c.toNat && c.toNat ≤ 90 then Char.ofNat (c.toNat + 32) else c

def lowerL (cs : List Char) : List Char := cs.map lowerChar

/-- Han range `[一-鿿]` used by every variant's CJK regexes. -/
def isCJKChar (c : Char) : Bool := 0x4e00 ≤ c.toNat && c.toNat ≤ 0x9fff

def isDigitChar (c : Char) : Bool := 48 ≤ c.toNat && c.toNat ≤ 57

def isLowerAlpha (c : Char) : Bool := 97 ≤ c.toNat && c.toNat ≤ 122

def isUpperAlpha (c : Char) : Bool := 65 ≤ c.toNat && c.toNat ≤ 90

def isAlphaChar (c : Char) : Bool := isLowerAlpha c || isUpperAlpha c

/-- `[a-z0-9]` (tokens are lowercased before this class is applied). -/
def isLowerAlnum (c : Char) : Bool := isLowerAlpha c || isDigitChar c

/-- Left-to-right, non-overlapping `str.replace(pat, rep)`, structurally
recursive on a character-count fuel (each step consumes at least one
character, so the fuel never runs out when started at the input length). -/
def replaceFuel (pat rep : List Char) : Nat → List Char → List Char
  | 0, cs => cs
  | _ + 1, [] => []
  | fuel + 1, c :: cs =>
    if pat ≠ [] && pat.isPrefixOf (c :: cs) then
      rep ++ replaceFuel pat rep fuel ((c :: cs).drop pat.length)
    else
      c :: replaceFuel pat rep fuel cs

def replaceAllL (pat rep : List Char) (cs : List Char) : List Char :=
  replaceFuel pat rep cs.length cs

/-- Stable insertion by a (total) boolean `le`: `x` goes after equal keys. -/
def insertLe {α : Type} (le : α → α → Bool) (x : α) : List α → List α
  | [] => [x]
  | y :: ys => if le y x then y :: insertLe le x ys else x :: y :: ys

/-- Stable sort matching Python `sorted` for a total boolean `le`. -/
def sortLe {α : Type} (le : α → α → Bool) (xs : List α) : List α :=
  xs.foldl (fun acc x => insertLe le x acc) []

/-- Code-point lexicographic `<` on strings (Python `str` comparison). -/
def strLtL : List Char → List Char → Bool
  | [], [] => false
  | [], _ :: _ => true
  | _ :: _, [] => false
  | a :: as, b :: bs =>
    if a.toNat < b.toNat then true
    else if b.toNat < a.toNat then false
    else strLtL as bs

def strLt (a b : String) : Bool := strLtL a.data b.data

def strLe (a b : String) : Bool := strLt a b || a == b

/-- First-match association-list lookup (all dict keys built below are unique). -/
def lookupA {α : Type} (kvs : List (String × α)) (k : String) : Option α :=
  (kvs.find? (fun kv => kv.1 == k)).map (·.2)

/-- Python dict assignment: replace in place, else append. -/
def upsertA {α : Type} : List (String × α) → String → α → List (String × α)
  | [], k, v => [(k, v)]
  | (k', v') :: rest, k, v =>
    if k' == k then (k', v) :: rest else (k', v') :: upsertA rest k v

/-- `collections.Counter` contents in first-occurrence order. -/
def countOcc (xs : List String) : List (String × Nat) :=
  xs.foldl
    (fun acc x =>
      match lookupA acc x with
      | some n => upsertA acc x (n + 1)
      | none => acc ++ [(x, 1)])
    []

/-- `sorted(cnt.items(), key=lambda kv: (-kv[1], kv[0]))`. -/
def rankByFreqThenStr (items : List (String × Nat)) : List (String × Nat) :=
  sortLe
    (fun a b => b.2 < a.2 || (a.2 == b.2 && strLe a.1 b.1))
    items

/-- `Counter.most_common(k)` ordering: count descending, ties by insertion order. -/
def mostCommon (items : List (String × Nat)) : List (String × Nat) :=
  sortLe (fun a b => b.2 ≤ a.2) items

/-- Order-preserving deduplication keyed on the raw string. -/
def uniquePreserve (xs : List String) : List String :=
  (xs.foldl (fun acc x => if acc.contains x then acc else acc ++ [x]) [])

end PyStr

instance {e a : Type} [DecidableEq e] [DecidableEq a] : DecidableEq (Except e a) :=
  fun x y =>
    match x, y with
    | .ok u, .ok v =>
      if h : u = v then isTrue (by rw [h]) else isFalse (by simp [h])
    | .error u, .error v =>
      if h : u = v then isTrue (by rw [h]) else isFalse (by simp [h])
    | .ok _, .error _ => isFalse (by simp)
    | .error _, .ok _ => isFalse (by simp)

/-- JSON values as Python's `json` module and the pipeline's `dict`s expose them.
Objects are ordered key/value lists (Python dicts preserve insertion order);
`i` covers Python `int`, `f` covers `float`, and Python's `bool` (which is an
`int` subtype) is kept separate, with `asInt` reflecting `isinstance(x, int)`. -/
inductive Json where
  | null : Json
  | b (v : Bool) : Json
  | i (v : Int) : Json
  | f (v : ℚ) : Json
  | s (v : String) : Json
  | arr (items : List Json) : Json
  | obj (fields : List (String × Json)) : Json

/-- Python `isinstance(x, int)` together with the int value (`True == 1`). -/
def Json.asInt : Json → Option Int
  | .i v => some v
  | .b v => some (if v then 1 else 0)
  | _ => none

def Json.asStr : Json → Option String
  | .s v => some v
  | _ => none

def Json.isObj : Json → Bool
  | .obj _ => true
  | _ => false

/-- `d.get(k)` on an object's field list. -/
def Json.getField (fields : List (String × Json)) (k : String) : Option Json :=
  PyStr.lookupA fields k

namespace L2c

/-- `Language = Literal["zh", "en", "auto"]`. -/
inductive Lang3 where
  | zh | en | auto
deriving DecidableEq

/-- Resolved language. -/
inductive Lang2 where
  | zh | en
deriving DecidableEq

/-- `AnalyzeOptions` from `learn2cards/pipeline.py` (float fields as `ℚ`). -/
structure AnalyzeOptions where
  language : Lang3 := .auto
  max_topics : Nat := 5
  topic_threshold : ℚ := mkRat 3 4
  max_bullets_per_card : Nat := 5
  target_bullets_per_card : Nat := 4
  embedding_dim : Nat := 256
  seed : Option Int := some 0
  source : String := "text"
  verbose : Bool := false
  max_chars : Nat := 200000
deriving DecidableEq

def defaultOptions : AnalyzeOptions := {}

def _validate_options (opt : AnalyzeOptions) : Except String Unit := do
  if opt.max_topics < 1 then throw "max_topics 必須 >= 1"
  if ¬ (0 ≤ opt.topic_threshold ∧ opt.topic_threshold ≤ 1) then
    throw "topic_threshold 必須介於 0.0~1.0"
  if opt.embedding_dim < 16 then throw "embedding_dim 過小（建議 >= 16）"
  if ¬ (1 ≤ opt.max_bullets_per_card ∧ opt.max_bullets_per_card ≤ 5) then
    throw "max_bullets_per_card 必須介於 1~5"
  if ¬ (1 ≤ opt.target_bullets_per_card ∧ opt.target_bullets_per_card ≤ 5) then
    throw "target_bullets_per_card 必須介於 1~5"
  if opt.target_bullets_per_card > opt.max_bullets_per_card then
    throw "target_bullets_per_card 不得大於 max_bullets_per_card"

/-- `_RE_MD_HEADING = ^(#{1,6})\s+(.*)\s*$`; returns (level, raw group 2). -/
def matchHeading (line : List Char) : Option (Nat × List Char) :=
  let hashes := line.takeWhile (· = '#')
  let rest := line.drop hashes.length
  if 1 ≤ hashes.length && hashes.length ≤ 6 then
    match rest with
    | c :: _ => if PyStr.isSpaceChar c then some (hashes.length, PyStr.lstripL rest) else none
    | [] => none
  else none

/-- After a list-item marker: `\s+(.*)\s*$` (raw group, caller strips). -/
def matchAfterMarker (cs : List Char) : Option (List Char) :=
  match cs with
  | c :: _ => if PyStr.isSpaceChar c then some (PyStr.lstripL cs) else none
  | [] => none

/-- `_RE_LIST_ITEM = ^(\s*)(?:[-*+]|(\d+)[.)])\s+(.*)\s*$`; returns raw group 3. -/
def matchListItem (line : List Char) : Option (List Char) :=
  let rest0 := PyStr.lstripL line
  match rest0 with
  | c :: cs =>
    if c = '-' || c = '*' || c = '+' then matchAfterMarker cs
    else
      let digits := rest0.takeWhile PyStr.isDigitChar
      if digits ≠ [] then
        match rest0.drop digits.length with
        | p :: ps => if p = '.' || p = ')' then matchAfterMarker ps else none
        | [] => none
      else none
  | [] => none

/-- Segmentation state: `heading_titles` stack and `current_heading_level`
(`section_stack` is recomputed from `heading_titles` exactly as `set_heading`
does). -/
structure SegState where
  heading_titles : List String
  current_heading_level : Option Nat

def SegState.sectionStack (st : SegState) : List String :=
  st.heading_titles.filter (fun t => t ≠ "")

/-- `set_heading` from `_split_paragraphs`. -/
def set_heading (st : SegState) (level : Nat) (title : String) : SegState :=
  if level ≤ 0 then ⟨[], none⟩
  else
    let ht := if st.heading_titles.length ≥ level
              then st.heading_titles.take (level - 1)
              else st.heading_titles
    let ht := ht ++ List.replicate (level - 1 - ht.length) ""
    ⟨ht ++ [PyStr.strip title], some level⟩

/-- One raw paragraph as `_split_paragraphs` emits it (a dict with `text` and
optional `sectionPath` / `headingLevel` keys). -/
structure ProtoPara where
  text : String
  sectionPath : Option (List String)
  headingLevel : Option Nat
deriving DecidableEq

def mkProto (st : SegState) (text : String) : ProtoPara :=
  ⟨text,
   if st.sectionStack ≠ [] then some st.sectionStack else none,
   st.current_heading_level⟩

/-- `flush_buf`: join the buffer, strip, emit when non-empty. -/
def flushBuf (st : SegState) (buf : List String) : List ProtoPara :=
  let joined := PyStr.strip (String.intercalate "\n" buf)
  if joined ≠ "" then [mkProto st joined] else []

def splitLoop : List (List Char) → SegState → List String → List ProtoPara
  | [], st, buf => flushBuf st buf
  | line :: rest, st, buf =>
    match matchHeading line with
    | some (level, rawTitle) =>
      flushBuf st buf ++
        splitLoop rest (set_heading st level (PyStr.strip ⟨rawTitle⟩)) []
    | none =>
      if PyStr.stripL line = [] then
        flushBuf st buf ++ splitLoop rest st []
      else
        match matchListItem line with
        | some rawItem =>
          let itemText := PyStr.strip ⟨rawItem⟩
          flushBuf st buf ++
            (if itemText ≠ "" then [mkProto st itemText] else []) ++
            splitLoop rest st []
        | none => splitLoop rest st (buf ++ [PyStr.rstripS ⟨line⟩])

/-- `_split_paragraphs` from `learn2cards/pipeline.py` (headings are *not*
emitted as paragraphs; they only update the section context). -/
def _split_paragraphs (text : String) : List ProtoPara :=
  splitLoop (PyStr.splitOnCharL '\n' text.data) ⟨[], none⟩ []

end L2c

namespace L2c

/-- `ParagraphObj`: the paragraph dicts built inside `analyze_text`
(optional keys are only present when set, mirrored by `Option`). -/
structure ParagraphObj where
  id : String
  idx : Nat
  text : String
  headingLevel : Option Nat
  sectionPath : Option (List String)
deriving DecidableEq

/-- id = `"p" ++ (i+1)`, idx = `i`, from `enumerate(paragraphs)`. -/
def mk_paragraph_objs (i : Nat) : List ProtoPara → List ParagraphObj
  | [] => []
  | p :: ps =>
    ⟨"p" ++ toString (i + 1), i, p.text, p.headingLevel, p.sectionPath⟩ ::
      mk_paragraph_objs (i + 1) ps

def _resolve_language (language : Lang3) (text : String) : Lang2 :=
  match language with
  | .zh => .zh
  | .en => .en
  | .auto => if text.data.any PyStr.isCJKChar then .zh else .en

def zhTerm (c : Char) : Bool :=
  c = '。' || c = '！' || c = '？' || c = '!' || c = '?'

def enTerm (c : Char) : Bool := c = '.' || c = '?' || c = '!'

/-- `re.split(r"[。！？!?]", t, maxsplit=1)` first part. -/
def splitFirstZh (cs : List Char) : List Char := cs.takeWhile (fun c => ¬ zhTerm c)

/-- `re.split(r"[.?!]\s", t, maxsplit=1)` first part. -/
def splitFirstEn : List Char → List Char
  | [] => []
  | [c] => [c]
  | a :: b :: cs =>
    if enTerm a && PyStr.isSpaceChar b then []
    else a :: splitFirstEn (b :: cs)

def _first_sentence (text : String) (lang : Lang2) : String :=
  let t := PyStr.strip ⟨PyStr.collapseWsL text.data⟩
  if t = "" then ""
  else
    match lang with
    | .zh =>
      let s := PyStr.strip ⟨splitFirstZh t.data⟩
      if s ≠ "" then s else ⟨t.data.take 120⟩
    | .en =>
      let s := PyStr.strip ⟨splitFirstEn t.data⟩
      if s ≠ "" then s else ⟨t.data.take 120⟩

/-- `re.findall` for an alternation of `{2,}`-repeated *disjoint* character
classes (as in `[一-鿿]{2,}|[a-z0-9]{2,}`): emit every maximal same-class run
of length ≥ 2, scanning left to right.  `acc` carries the current run
(reversed) and its class index. -/
def scanRuns (clsOf : Char → Option Nat) :
    List Char → Option (Nat × List Char) → List String
  | [], none => []
  | [], some (_, run) => if 2 ≤ run.length then [⟨run.reverse⟩] else []
  | c :: cs, none =>
    match clsOf c with
    | some k => scanRuns clsOf cs (some (k, [c]))
    | none => scanRuns clsOf cs none
  | c :: cs, some (k, run) =>
    match clsOf c with
    | some k' =>
      if k' = k then scanRuns clsOf cs (some (k, c :: run))
      else
        (if 2 ≤ run.length then [(⟨run.reverse⟩ : String)] else []) ++
          scanRuns clsOf cs (some (k', [c]))
    | none =>
      (if 2 ≤ run.length then [(⟨run.reverse⟩ : String)] else []) ++
        scanRuns clsOf cs none

/-- `re.findall(r"[一-鿿]{2,}|[a-z0-9]{2,}", t)`. -/
def tokenizeScanZh (cs : List Char) : List String :=
  scanRuns
    (fun c =>
      if PyStr.isCJKChar c then some 0
      else if PyStr.isLowerAlnum c then some 1
      else none)
    cs none

/-- `re.findall(r"[a-z0-9]{2,}", t)`. -/
def tokenizeScanEn (cs : List Char) : List String :=
  scanRuns (fun c => if PyStr.isLowerAlnum c then some 0 else none) cs none

def _tokenize (text : String) (lang : Lang2) : List String :=
  let t := PyStr.lowerL text.data
  match lang with
  | .zh => tokenizeScanZh t
  | .en => tokenizeScanEn t

def _STOPWORDS_EN : List String :=
  ["the", "a", "an", "and", "or", "to", "of", "in", "on", "for", "with", "as",
   "by", "is", "are", "was", "were", "be", "been", "it", "this", "that",
   "these", "those", "at", "from", "we", "you", "they", "i", "our", "your",
   "their"]

def _STOPWORDS_ZH : List String :=
  ["的", "了", "與", "和", "及", "或", "在", "對", "把", "是", "為", "並", "而",
   "也", "都", "及其", "以及", "如果", "因為", "所以", "我們", "你們", "他們",
   "她們", "它們"]

def stopwordsOf (lang : Lang2) : List String :=
  match lang with
  | .zh => _STOPWORDS_ZH
  | .en => _STOPWORDS_EN

def _extract_keywords (text : String) (lang : Lang2) (k : Nat) : List String :=
  let tokens := _tokenize text lang
  let tokens := tokens.filter (fun x => ¬ (stopwordsOf lang).contains x)
  if tokens = [] then []
  else ((PyStr.rankByFreqThenStr (PyStr.countOcc tokens)).take k).map (·.1)

structure KeypointObj where
  paragraphId : String
  sentence : String
  keywords : List String
deriving DecidableEq

def _extract_keypoints (paragraphs : List ParagraphObj) (language : Lang2) :
    List KeypointObj :=
  paragraphs.map (fun p =>
    let sent := _first_sentence p.text language
    let kws := _extract_keywords p.text language 5
    let sent := if sent = "" then PyStr.strip ⟨p.text.data.take 160⟩ else sent
    let kws := if kws = [] then _extract_keywords sent language 5 else kws
    let kws := kws.take 5
    let kws :=
      if kws.length = 0 then
        let toks := _tokenize p.text language
        if toks ≠ [] then toks.take 1 else []
      else kws
    ⟨p.id, sent, kws.take 5⟩)

end L2c

namespace L2c

/-- Modelled from the spec: `_hash_token` calls the standard library's
`hashlib.md5` (external to this repository) and keeps `int(hex[:8], 16)`,
i.e. a 32-bit value.  §4.3 of the spec requires only a deterministic,
platform-stable hash of the token; a 32-bit polynomial hash of the code
points stands in for the MD5 prefix. -/
def _hash_token (token : String) : Nat :=
  token.data.foldl (fun acc c => (acc * 131 + c.toNat) % 4294967296) 7

/-- Embedding vectors (`list[float]` modelled over `ℝ`). -/
abbrev Vec := List ℝ

open Classical in
/-- `_l2_normalize_inplace` (returning the updated list). -/
noncomputable def _l2_normalize (vec : Vec) : Vec :=
  let s2 := (vec.map (fun x => x * x)).sum
  if s2 ≤ 0 then vec
  else vec.map (fun x => x * (Real.sqrt s2)⁻¹)

noncomputable def _dot (a b : Vec) : ℝ := (List.zipWith (· * ·) a b).sum

/-- `out[i] += x` over the entries of `v` (`for i, x in enumerate(v)`). -/
noncomputable def addInto : Vec → Vec → Vec
  | os, [] => os
  | [], _ :: _ => []
  | o :: os, x :: xs => (o + x) :: addInto os xs

/-- `_mean_vector`: componentwise mean over the first vector's dimension,
then L2-normalization. -/
noncomputable def _mean_vector (vs : List Vec) : Vec :=
  match vs with
  | [] => []
  | v0 :: _ =>
    let dim := v0.length
    let out := vs.foldl addInto (List.replicate dim (0 : ℝ))
    let out := out.map (fun x => x * ((vs.length : ℝ))⁻¹)
    _l2_normalize out

/-- `vec[idx] += 1.0`. -/
noncomputable def updAdd : Vec → Nat → Vec
  | [], _ => []
  | x :: xs, 0 => (x + 1) :: xs
  | x :: xs, n + 1 => x :: updAdd xs n

/-- `_embed_paragraphs`: hashed bag-of-words from paragraph text plus
`kw:`-prefixed keywords; the all-zero vector when no token is found. -/
noncomputable def _embed_paragraphs (paragraphs : List ParagraphObj)
    (keypoints : List KeypointObj) (dim : Nat) (lang : Lang2) : List Vec :=
  paragraphs.map (fun p =>
    let toks := _tokenize p.text lang
    let kws :=
      match keypoints.reverse.find? (fun k => k.paragraphId == p.id) with
      | some k => k.keywords
      | none => []
    let toks := toks ++ kws.map (fun kw => "kw:" ++ kw)
    if toks.isEmpty then List.replicate dim (0 : ℝ)
    else
      _l2_normalize
        (toks.foldl (fun vec tok => updAdd vec (_hash_token tok % dim))
          (List.replicate dim (0 : ℝ))))

structure TopicObj where
  id : String
  title : String
  memberIds : List String
  summaryBullets : List String
deriving DecidableEq

def digitsToNat (cs : List Char) : Nat :=
  cs.foldl (fun a c => a * 10 + (c.toNat - 48)) 0

/-- `_pid_to_index`: fast `p<n>` path, else a linear scan; a pid that is
nowhere in `paragraphs` raises `PipelineError` (modelled as `none`). -/
def _pid_to_index (ps : List ParagraphObj) (pid : String) : Option Nat :=
  let fast : Option Nat :=
    match pid.data with
    | 'p' :: rest =>
      if rest ≠ [] && rest.all PyStr.isDigitChar then
        let n := digitsToNat rest
        if 1 ≤ n && n - 1 < ps.length &&
            ((ps.get? (n - 1)).map (·.id) == some pid) then
          some (n - 1)
        else none
      else none
    | _ => none
  match fast with
  | some idx => some idx
  | none => (ps.enum.find? (fun pr => pr.2.id == pid)).map (·.1)

def _title_from_keywords (keywords : List String) (lang : Lang2) : String :=
  let kws := keywords.filter (fun k => k ≠ "")
  if kws = [] then
    match lang with
    | .zh => "未命名主題"
    | .en => "Untitled Topic"
  else
    let ranked := PyStr.rankByFreqThenStr (PyStr.countOcc kws)
    let picked := (ranked.take 4).map (·.1)
    let picked := if picked.length > 3 then picked.take 3 else picked
    match lang with
    | .zh => String.intercalate "、" picked
    | .en => String.intercalate " / " picked

/-- `_dedupe`: strip, drop empties and repeats, keep first occurrences. -/
def _dedupe (items : List String) : List String :=
  (items.foldl
    (fun (acc : List String × List String) x =>
      let key := PyStr.strip x
      if key = "" || acc.2.contains key then acc
      else (acc.1 ++ [key], acc.2 ++ [key]))
    ([], [])).1

open Classical in
/-- First index of the maximum (`max(range(len(sims)), key=...)`). -/
noncomputable def argmaxIdx : List ℝ → Nat
  | [] => 0
  | x :: xs =>
    (xs.enum.foldl
      (fun (acc : Nat × ℝ) pr => if pr.2 > acc.2 then (pr.1 + 1, pr.2) else acc)
      (0, x)).1

/-- Append `pid` to `topics[i].memberIds`. -/
def pushMember (topics : List TopicObj) (idx : Nat) (pid : String) : List TopicObj :=
  topics.set idx
    (let t := topics.getD idx ⟨"", "", [], []⟩
     { t with memberIds := t.memberIds ++ [pid] })

/-- Recompute `centroids[best_i]` from the member vectors
(`vectors[_pid_to_index(paragraphs, mid)]`; a missing pid raises). -/
noncomputable def recomputeCentroid (paragraphs : List ParagraphObj)
    (vectors : List Vec) (mids : List String) : Except String Vec := do
  let vs ← mids.mapM (fun mid =>
    match _pid_to_index paragraphs mid with
    | some idx => Except.ok (vectors.getD idx [])
    | none => Except.error ("找不到 paragraph id：" ++ mid))
  Except.ok (_mean_vector vs)

/-- The body of `_cluster_threshold`'s assignment branch (used both when the
similarity clears the threshold and when the topic cap forces assignment). -/
noncomputable def assignToBest (paragraphs : List ParagraphObj) (vectors : List Vec)
    (topics : List TopicObj) (centroids : List Vec) (best_i : Nat) (pid : String) :
    Except String (List TopicObj × List Vec) := do
  let topics' := pushMember topics best_i pid
  let c ← recomputeCentroid paragraphs vectors
    (topics'.getD best_i ⟨"", "", [], []⟩).memberIds
  Except.ok (topics', centroids.set best_i c)

open Classical in
noncomputable def clusterStep (paragraphs : List ParagraphObj) (vectors : List Vec)
    (threshold : ℚ) (max_topics : Nat) :
    List (ParagraphObj × Vec) → List TopicObj → List Vec →
    Except String (List TopicObj × List Vec)
  | [], topics, centroids => Except.ok (topics, centroids)
  | (p, v) :: rest, topics, centroids =>
    if topics = [] then
      clusterStep paragraphs vectors threshold max_topics rest
        [⟨"t1", "", [p.id], []⟩] [v]
    else
      let sims := centroids.map (fun c => _dot v c)
      let best_i := argmaxIdx sims
      let best_sim := sims.getD best_i 0
      if best_sim ≥ (threshold : ℝ) then do
        let (topics', centroids') ←
          assignToBest paragraphs vectors topics centroids best_i p.id
        clusterStep paragraphs vectors threshold max_topics rest topics' centroids'
      else if topics.length < max_topics then
        clusterStep paragraphs vectors threshold max_topics rest
          (topics ++ [⟨"t" ++ toString (topics.length + 1), "", [p.id], []⟩])
          (centroids ++ [v])
      else do
        let (topics', centroids') ←
          assignToBest paragraphs vectors topics centroids best_i p.id
        clusterStep paragraphs vectors threshold max_topics rest topics' centroids'

/-- Title / summary derivation over the final member lists. -/
def topicTitleSummary (keypoints : List KeypointObj) (lang : Lang2)
    (t : TopicObj) : TopicObj :=
  let kpOf := fun mid => keypoints.reverse.find? (fun k => k.paragraphId == mid)
  let member_kws :=
    (t.memberIds.map (fun mid =>
      match kpOf mid with
      | some kp => kp.keywords
      | none => [])).flatten
  let member_sents := t.memberIds.filterMap (fun mid => (kpOf mid).map (·.sentence))
  let bullets := (_dedupe member_sents).filter (fun s => s ≠ "")
  { t with
    title := _title_from_keywords member_kws lang,
    summaryBullets := if bullets ≠ [] then bullets.take 3 else [] }

noncomputable def _cluster_threshold (paragraphs : List ParagraphObj)
    (keypoints : List KeypointObj) (vectors : List Vec) (threshold : ℚ)
    (max_topics : Nat) (lang : Lang2) : Except String (List TopicObj) :=
  if paragraphs = [] then Except.ok []
  else do
    let (topics, _) ← clusterStep paragraphs vectors threshold max_topics
      (paragraphs.zip vectors) [] []
    Except.ok (topics.map (topicTitleSummary keypoints lang))

end L2c

namespace L2c

structure CardObj where
  id : String
  topicId : String
  title : String
  bullets : List String
deriving DecidableEq

/-- One bullet per member: the keypoint sentence (stripped) when present and
non-empty, else the first sentence of the paragraph's text. -/
def cardBullets (paragraphs : List ParagraphObj) (keypoints : List KeypointObj)
    (lang : Lang2) (chunk : List String) : Except String (List String) :=
  chunk.mapM (fun pid =>
    match keypoints.reverse.find? (fun k => k.paragraphId == pid) with
    | some kp =>
      if kp.sentence ≠ "" then Except.ok (PyStr.strip kp.sentence)
      else
        match _pid_to_index paragraphs pid with
        | some idx =>
          Except.ok (_first_sentence (paragraphs.getD idx ⟨"", 0, "", none, none⟩).text lang)
        | none => Except.error ("找不到 paragraph id：" ++ pid)
    | none =>
      match _pid_to_index paragraphs pid with
      | some idx =>
        Except.ok (_first_sentence (paragraphs.getD idx ⟨"", 0, "", none, none⟩).text lang)
      | none => Except.error ("找不到 paragraph id：" ++ pid))

/-- The `> 8` split: two contiguous chunks with cut `(n + 1) // 2`. -/
def genChunks (mids : List String) : List (List String) :=
  if mids.length > 8 then
    let cut := (mids.length + 1) / 2
    [mids.take cut, mids.drop cut]
  else [mids]

/-- Bullet post-processing inside `_generate_cards`'s chunk loop. -/
def postBullets (bullets : List String) (max_bullets target_bullets : Nat) :
    List String :=
  let bullets := _dedupe bullets
  let bullets := bullets.filter (fun bp => bp ≠ "")
  let bullets := if bullets.length > max_bullets then bullets.take max_bullets else bullets
  let bullets := if bullets.length = 0 then ["（此卡片目前沒有內容）"] else bullets
  if bullets.length > target_bullets then bullets.take target_bullets else bullets

def _generate_cards (topics : List TopicObj) (paragraphs : List ParagraphObj)
    (keypoints : List KeypointObj) (lang : Lang2)
    (max_bullets target_bullets : Nat) : Except String (List CardObj) :=
  topics.foldlM
    (fun (cards : List CardObj) topic => do
      let mids := topic.memberIds
      let chunks := genChunks mids
      chunks.enum.foldlM
        (fun (cards : List CardObj) pr => do
          let (chunk_i, chunk) := pr
          let title := if topic.title ≠ "" then topic.title else "未命名主題"
          let title :=
            if chunks.length = 2 then
              title ++ "（" ++ toString (chunk_i + 1) ++ "/2）"
            else title
          let bullets ← cardBullets paragraphs keypoints lang chunk
          let bullets := postBullets bullets max_bullets target_bullets
          Except.ok (cards ++
            [⟨"c" ++ toString (cards.length + 1), topic.id, title,
              bullets.take max_bullets⟩]))
        cards)
    []

/-- `min((idx_by_pid.get(mid, 10**9) for mid in mids), default=10**9)`. -/
def topicMinIdx (paragraphs : List ParagraphObj) (mids : List String) : Int :=
  let idxOf := fun mid =>
    ((paragraphs.reverse.find? (fun p => p.id == mid)).map (fun p => (p.idx : Int)))
  let vals := mids.map (fun mid => (idxOf mid).getD (10 ^ 9))
  match vals with
  | [] => 10 ^ 9
  | v :: vs => vs.foldl min v

def _sort_topics_deterministic (topics : List TopicObj)
    (paragraphs : List ParagraphObj) : List TopicObj :=
  PyStr.sortLe
    (fun t1 t2 =>
      let k1 := (topicMinIdx paragraphs t1.memberIds, t1.title)
      let k2 := (topicMinIdx paragraphs t2.memberIds, t2.title)
      k1.1 < k2.1 || (k1.1 == k2.1 && PyStr.strLe k1.2 k2.2))
    topics

def _reassign_topic_ids (topics : List TopicObj) :
    List TopicObj × List (String × String) :=
  (topics.enum.map (fun pr => { pr.2 with id := "t" ++ toString (pr.1 + 1) }),
   topics.enum.map (fun pr => (pr.2.id, "t" ++ toString (pr.1 + 1))))

def _remap_cards_topic_ids (cards : List CardObj)
    (topic_id_map : List (String × String)) : List CardObj :=
  cards.map (fun c =>
    { c with
      topicId :=
        match (topic_id_map.reverse.find? (fun kv => kv.1 == c.topicId)).map (·.2) with
        | some new => new
        | none => c.topicId })

def _sort_cards_deterministic (cards : List CardObj) (topics : List TopicObj) :
    List CardObj :=
  let orderOf := fun (tid : String) =>
    ((topics.enum.reverse.find? (fun pr => pr.2.id == tid)).map
      (fun pr => (pr.1 : Int))).getD (10 ^ 9)
  PyStr.sortLe
    (fun c1 c2 =>
      orderOf c1.topicId < orderOf c2.topicId ||
        (orderOf c1.topicId == orderOf c2.topicId && PyStr.strLe c1.title c2.title))
    cards

def _reassign_card_ids (cards : List CardObj) : List CardObj :=
  cards.enum.map (fun pr => { pr.2 with id := "c" ++ toString (pr.1 + 1) })

structure StatsObj where
  totalParagraphs : Nat
  totalKeypoints : Nat
  totalTopics : Nat
  totalCards : Nat
deriving DecidableEq

structure MetaObj where
  source : String
  generatedAt : String
  schemaVersion : String
deriving DecidableEq

/-- `_debug` payload (`resolvedLanguage` plus the options record). -/
structure DebugObj where
  resolvedLanguage : Lang2
  options : AnalyzeOptions
deriving DecidableEq

structure Deck where
  meta : MetaObj
  paragraphs : List ParagraphObj
  keypoints : List KeypointObj
  topics : List TopicObj
  cards : List CardObj
  stats : StatsObj
  debug : Option DebugObj
deriving DecidableEq

/-- Everything `analyze_text` computes other than `meta` (whose timestamp is
the only place the clock is read). -/
structure CoreOut where
  paragraphs : List ParagraphObj
  keypoints : List KeypointObj
  topics : List TopicObj
  cards : List CardObj
  stats : StatsObj
  debug : Option DebugObj
deriving DecidableEq

/-- `normalized.strip("\n")`. -/
def stripNl (cs : List Char) : List Char :=
  ((cs.dropWhile (· = '\n')).reverse.dropWhile (· = '\n')).reverse

noncomputable def analyze_core (text : String) (opt : AnalyzeOptions) :
    Except String CoreOut := do
  _validate_options opt
  let normalized : String := ⟨stripNl (PyStr.normNewlinesL text.data)⟩
  if PyStr.strip normalized = "" then throw "輸入文字為空。"
  if normalized.data.length > opt.max_chars then
    throw ("輸入過長（" ++ toString normalized.data.length ++ " chars），上限為 " ++
      toString opt.max_chars ++ "。")
  let paragraphs := _split_paragraphs normalized
  if paragraphs = [] then throw "切段後沒有任何段落。"
  let paragraph_objs := mk_paragraph_objs 0 paragraphs
  let lang := _resolve_language opt.language normalized
  let keypoints := _extract_keypoints paragraph_objs lang
  let vectors := _embed_paragraphs paragraph_objs keypoints opt.embedding_dim lang
  let topics ← _cluster_threshold paragraph_objs keypoints vectors
    opt.topic_threshold opt.max_topics lang
  let cards ← _generate_cards topics paragraph_objs keypoints lang
    opt.max_bullets_per_card opt.target_bullets_per_card
  let topics := _sort_topics_deterministic topics paragraph_objs
  let (topics, topic_id_map) := _reassign_topic_ids topics
  let cards := _remap_cards_topic_ids cards topic_id_map
  let cards := _sort_cards_deterministic cards topics
  let cards := _reassign_card_ids cards
  let stats : StatsObj :=
    ⟨paragraph_objs.length, keypoints.length, topics.length, cards.length⟩
  Except.ok
    ⟨paragraph_objs, keypoints, topics, cards, stats,
     if opt.verbose then some ⟨lang, opt⟩ else none⟩

def assembleDeck (now : String) (opt : AnalyzeOptions) (core : CoreOut) : Deck :=
  ⟨⟨opt.source, now, "1.0.0"⟩, core.paragraphs, core.keypoints, core.topics,
   core.cards, core.stats, core.debug⟩

/-- `analyze_text` from `learn2cards/pipeline.py`; the
`dt.datetime.now(...).isoformat()` timestamp is the explicit `now` argument
(the only input besides `text` and `options`). -/
noncomputable def analyze_text (now : String) (text : String)
    (opt : AnalyzeOptions) : Except String Deck :=
  (analyze_core text opt).map (assembleDeck now opt)

end L2c

namespace L2c

def lang2Str : Lang2 → String
  | .zh => "zh"
  | .en => "en"

def lang3Str : Lang3 → String
  | .zh => "zh"
  | .en => "en"
  | .auto => "auto"

/-- The paragraph dict in its construction order (optional keys only when set). -/
def paragraphToJson (p : ParagraphObj) : Json :=
  Json.obj
    ([("id", Json.s p.id), ("idx", Json.i p.idx), ("text", Json.s p.text)] ++
     (match p.headingLevel with
      | some h => [("headingLevel", Json.i h)]
      | none => []) ++
     (match p.sectionPath with
      | some sp => [("sectionPath", Json.arr (sp.map Json.s))]
      | none => []))

def keypointToJson (k : KeypointObj) : Json :=
  Json.obj
    [("paragraphId", Json.s k.paragraphId), ("sentence", Json.s k.sentence),
     ("keywords", Json.arr (k.keywords.map Json.s))]

def topicToJson (t : TopicObj) : Json :=
  Json.obj
    [("id", Json.s t.id), ("title", Json.s t.title),
     ("memberIds", Json.arr (t.memberIds.map Json.s)),
     ("summaryBullets", Json.arr (t.summaryBullets.map Json.s))]

def cardToJson (c : CardObj) : Json :=
  Json.obj
    [("id", Json.s c.id), ("topicId", Json.s c.topicId),
     ("title", Json.s c.title), ("bullets", Json.arr (c.bullets.map Json.s))]

def statsToJson (st : StatsObj) : Json :=
  Json.obj
    [("totalParagraphs", Json.i st.totalParagraphs),
     ("totalKeypoints", Json.i st.totalKeypoints),
     ("totalTopics", Json.i st.totalTopics),
     ("totalCards", Json.i st.totalCards)]

/-- `dataclasses.asdict(opt)` in field order. -/
def optionsToJson (opt : AnalyzeOptions) : Json :=
  Json.obj
    [("language", Json.s (lang3Str opt.language)),
     ("max_topics", Json.i opt.max_topics),
     ("topic_threshold", Json.f opt.topic_threshold),
     ("max_bullets_per_card", Json.i opt.max_bullets_per_card),
     ("target_bullets_per_card", Json.i opt.target_bullets_per_card),
     ("embedding_dim", Json.i opt.embedding_dim),
     ("seed", match opt.seed with | some n => Json.i n | none => Json.null),
     ("source", Json.s opt.source),
     ("verbose", Json.b opt.verbose),
     ("max_chars", Json.i opt.max_chars)]

/-- The deck dict exactly as `analyze_text` returns it. -/
def deckToJson (d : Deck) : Json :=
  Json.obj
    ([("meta",
       Json.obj
         [("source", Json.s d.meta.source),
          ("generatedAt", Json.s d.meta.generatedAt),
          ("schemaVersion", Json.s d.meta.schemaVersion)]),
      ("paragraphs", Json.arr (d.paragraphs.map paragraphToJson)),
      ("keypoints", Json.arr (d.keypoints.map keypointToJson)),
      ("topics", Json.arr (d.topics.map topicToJson)),
      ("cards", Json.arr (d.cards.map cardToJson)),
      ("stats", statsToJson d.stats)] ++
     (match d.debug with
      | some dbgInfo =>
        [("_debug",
          Json.obj
            [("resolvedLanguage", Json.s (lang2Str dbgInfo.resolvedLanguage)),
             ("options", optionsToJson dbgInfo.options)])]
      | none => []))

structure ValidationResult where
  ok : Bool
  errors : List String
deriving DecidableEq

def topLevelKeys : List String :=
  ["meta", "paragraphs", "keypoints", "topics", "cards", "stats"]

def metaErrors (meta : Json) : List String :=
  match meta with
  | .obj fields =>
    (["source", "generatedAt", "schemaVersion"].filterMap (fun k =>
      if (Json.getField fields k).isNone then some ("meta 缺少欄位：" ++ k)
      else none)) ++
    (match Json.getField fields "schemaVersion" with
     | some (.s "1.0.0") => []
     | _ => ["meta.schemaVersion 必須為 '1.0.0'。"])
  | _ => ["meta 必須是 object。"]

/-- Coerce a section to a list, reporting an issue and degrading to `[]`. -/
def asArr (j : Json) (msg : String) : List Json × List String :=
  match j with
  | .arr xs => (xs, [])
  | _ => ([], [msg])

def asObjFields (j : Json) (msg : String) : List (String × Json) × List String :=
  match j with
  | .obj fs => (fs, [])
  | _ => ([], [msg])

/-- `x for x in sp if not isinstance(x, str)` style element-type tests. -/
def anyNotStr (xs : List Json) : Bool :=
  xs.any (fun x => match x with | .s _ => false | _ => true)

def anyNotStrOrEmpty (xs : List Json) : Bool :=
  xs.any (fun x => match x with | .s v => v = "" | _ => true)

def anyNotStrOrBlank (xs : List Json) : Bool :=
  xs.any (fun x => match x with | .s v => PyStr.strip v = "" | _ => true)

end L2c

namespace L2c

/-- Paragraph loop: accumulates issues and `paragraph_idx_by_id`. -/
def validateParagraph (acc : List String × List (String × Int)) (pr : Nat × Json) :
    List String × List (String × Int) :=
  let (errs, pidIdx) := acc
  let (i, p) := pr
  match p with
  | .obj fields =>
    match Json.getField fields "id" with
    | some (.s pidS) =>
      if pidS = "" then
        (errs ++ ["paragraphs[" ++ toString i ++ "].id 必須是非空字串。"], pidIdx)
      else
        let errs := errs ++
          (if (PyStr.lookupA pidIdx pidS).isSome then ["paragraph id 重複：" ++ pidS]
           else [])
        let (errs, pidIdx) :=
          match (Json.getField fields "idx").bind Json.asInt with
          | some n =>
            if n < 0 then
              (errs ++ ["paragraphs[" ++ toString i ++ "].idx 必須是 >=0 的整數。"],
               pidIdx)
            else (errs, PyStr.upsertA pidIdx pidS n)
          | none =>
            (errs ++ ["paragraphs[" ++ toString i ++ "].idx 必須是 >=0 的整數。"],
             pidIdx)
        let errs := errs ++
          (match (Json.getField fields "text").bind Json.asStr with
           | some t => if PyStr.strip t = "" then
               ["paragraphs[" ++ toString i ++ "].text 必須是非空字串。"] else []
           | none => ["paragraphs[" ++ toString i ++ "].text 必須是非空字串。"])
        let errs := errs ++
          (match Json.getField fields "headingLevel" with
           | some hl =>
             if hl.asInt.isNone then
               ["paragraphs[" ++ toString i ++ "].headingLevel 必須是 int（若提供）。"]
             else []
           | none => [])
        let errs := errs ++
          (match Json.getField fields "sectionPath" with
           | some (.arr sp) =>
             if anyNotStr sp then
               ["paragraphs[" ++ toString i ++ "].sectionPath 必須是 string array（若提供）。"]
             else []
           | some _ =>
             ["paragraphs[" ++ toString i ++ "].sectionPath 必須是 string array（若提供）。"]
           | none => [])
        (errs, pidIdx)
    | _ => (errs ++ ["paragraphs[" ++ toString i ++ "].id 必須是非空字串。"], pidIdx)
  | _ => (errs ++ ["paragraphs[" ++ toString i ++ "] 必須是 object。"], pidIdx)

/-- Keypoint loop. -/
def validateKeypoint (pidIdx : List (String × Int)) (errs : List String)
    (pr : Nat × Json) : List String :=
  let (i, kp) := pr
  match kp with
  | .obj fields =>
    match Json.getField fields "paragraphId" with
    | some (.s pidS) =>
      if pidS = "" then
        errs ++ ["keypoints[" ++ toString i ++ "].paragraphId 必須是非空字串。"]
      else
        let errs := errs ++
          (if (PyStr.lookupA pidIdx pidS).isNone then
            ["keypoints[" ++ toString i ++ "].paragraphId 不存在於 paragraphs：" ++ pidS]
          else [])
        let errs := errs ++
          (match (Json.getField fields "sentence").bind Json.asStr with
           | some t => if PyStr.strip t = "" then
               ["keypoints[" ++ toString i ++ "].sentence 必須是非空字串。"] else []
           | none => ["keypoints[" ++ toString i ++ "].sentence 必須是非空字串。"])
        (match Json.getField fields "keywords" with
         | some (.arr kws) =>
           if anyNotStrOrEmpty kws then
             errs ++ ["keypoints[" ++ toString i ++ "].keywords 必須是 string array。"]
           else if ¬ (1 ≤ kws.length ∧ kws.length ≤ 5) then
             errs ++ ["keypoints[" ++ toString i ++ "].keywords 長度必須介於 1~5。"]
           else errs
         | _ => errs ++ ["keypoints[" ++ toString i ++ "].keywords 必須是 string array。"])
    | _ => errs ++ ["keypoints[" ++ toString i ++ "].paragraphId 必須是非空字串。"]
  | _ => errs ++ ["keypoints[" ++ toString i ++ "] 必須是 object。"]

/-- Topic-loop state: issues, `topic_ids`, `topic_min_idx`, `member_count_by_topic`. -/
structure TopicAcc where
  errs : List String
  topicIds : List String
  topicMin : List (String × Int)
  memberCount : List (String × Int)

def validateTopic (pidIdx : List (String × Int)) (acc : TopicAcc)
    (pr : Nat × Json) : TopicAcc :=
  let (i, t) := pr
  match t with
  | .obj fields =>
    match Json.getField fields "id" with
    | some (.s tidS) =>
      if tidS = "" then
        { acc with errs := acc.errs ++ ["topics[" ++ toString i ++ "].id 必須是非空字串。"] }
      else
        let errs := acc.errs ++
          (if acc.topicIds.contains tidS then ["topic id 重複：" ++ tidS] else [])
        let topicIds := acc.topicIds ++ [tidS]
        let errs := errs ++
          (match (Json.getField fields "title").bind Json.asStr with
           | some ti => if PyStr.strip ti = "" then
               ["topics[" ++ toString i ++ "].title 必須是非空字串。"] else []
           | none => ["topics[" ++ toString i ++ "].title 必須是非空字串。"])
        match Json.getField fields "memberIds" with
        | some (.arr mids) =>
          if anyNotStrOrEmpty mids then
            { errs := errs ++ ["topics[" ++ toString i ++ "].memberIds 必須是 string array。"],
              topicIds := topicIds, topicMin := acc.topicMin,
              memberCount := acc.memberCount }
          else
            let errs := errs ++
              (if mids.length < 1 then
                ["topics[" ++ toString i ++ "].memberIds 不得為空。"] else [])
            let memberCount := PyStr.upsertA acc.memberCount tidS mids.length
            let midStrs := mids.filterMap Json.asStr
            let errs := errs ++
              (midStrs.filterMap (fun mid =>
                if (PyStr.lookupA pidIdx mid).isNone then
                  some ("topics[" ++ toString i ++ "].memberIds 包含不存在的 paragraphId：" ++ mid)
                else none))
            let found := midStrs.filterMap (fun mid => PyStr.lookupA pidIdx mid)
            let minIdx : Int :=
              match found with
              | [] => 10 ^ 9
              | v :: vs => vs.foldl min v
            let topicMin := PyStr.upsertA acc.topicMin tidS minIdx
            let errs := errs ++
              (match Json.getField fields "summaryBullets" with
               | some (.arr sb) =>
                 if anyNotStr sb then
                   ["topics[" ++ toString i ++ "].summaryBullets 必須是 string array（若提供）。"]
                 else []
               | some _ =>
                 ["topics[" ++ toString i ++ "].summaryBullets 必須是 string array（若提供）。"]
               | none => [])
            ⟨errs, topicIds, topicMin, memberCount⟩
        | _ =>
          { errs := errs ++ ["topics[" ++ toString i ++ "].memberIds 必須是 string array。"],
            topicIds := topicIds, topicMin := acc.topicMin,
            memberCount := acc.memberCount }
    | _ =>
      { acc with errs := acc.errs ++ ["topics[" ++ toString i ++ "].id 必須是非空字串。"] }
  | _ => { acc with errs := acc.errs ++ ["topics[" ++ toString i ++ "] 必須是 object。"] }

end L2c

namespace L2c

/-- Card-loop state: issues, `card_ids`, per-topic card counts. -/
structure CardAcc where
  errs : List String
  cardIds : List String
  cardsByTopic : List (String × Nat)

def validateCard (topicIds : List String) (acc : CardAcc) (pr : Nat × Json) :
    CardAcc :=
  let (i, c) := pr
  match c with
  | .obj fields =>
    let (errs, cardIds) :=
      match Json.getField fields "id" with
      | some (.s cidS) =>
        if cidS = "" then
          (acc.errs ++ ["cards[" ++ toString i ++ "].id 必須是非空字串。"], acc.cardIds)
        else if acc.cardIds.contains cidS then
          (acc.errs ++ ["card id 重複：" ++ cidS], acc.cardIds)
        else (acc.errs, acc.cardIds ++ [cidS])
      | _ => (acc.errs ++ ["cards[" ++ toString i ++ "].id 必須是非空字串。"], acc.cardIds)
    let tidOpt := Json.getField fields "topicId"
    let errs := errs ++
      (match tidOpt with
       | some (.s tidS) =>
         if tidS = "" then ["cards[" ++ toString i ++ "].topicId 必須是非空字串。"]
         else if ¬ topicIds.contains tidS then
           ["cards[" ++ toString i ++ "].topicId 不存在於 topics：" ++ tidS]
         else []
       | _ => ["cards[" ++ toString i ++ "].topicId 必須是非空字串。"])
    let errs := errs ++
      (match (Json.getField fields "title").bind Json.asStr with
       | some ti => if PyStr.strip ti = "" then
           ["cards[" ++ toString i ++ "].title 必須是非空字串。"] else []
       | none => ["cards[" ++ toString i ++ "].title 必須是非空字串。"])
    let errs := errs ++
      (match Json.getField fields "bullets" with
       | some (.arr bs) =>
         if anyNotStrOrBlank bs then
           ["cards[" ++ toString i ++ "].bullets 必須是非空字串 array。"]
         else if ¬ (1 ≤ bs.length ∧ bs.length ≤ 5) then
           ["cards[" ++ toString i ++ "].bullets 長度必須介於 1~5。"]
         else []
       | _ => ["cards[" ++ toString i ++ "].bullets 必須是非空字串 array。"])
    let cardsByTopic :=
      match tidOpt with
      | some (.s tidS) =>
        if tidS ≠ "" then
          PyStr.upsertA acc.cardsByTopic tidS
            (((PyStr.lookupA acc.cardsByTopic tidS).getD 0) + 1)
        else acc.cardsByTopic
      | _ => acc.cardsByTopic
    ⟨errs, cardIds, cardsByTopic⟩
  | _ => { acc with errs := acc.errs ++ ["cards[" ++ toString i ++ "] 必須是 object。"] }

def statsErrors (stats : List (String × Json)) (nPar nKp nTop nCard : Nat) :
    List String :=
  let requireInt := fun (name : String) =>
    match (Json.getField stats name).bind Json.asInt with
    | some v => if v < 0 then ["stats." ++ name ++ " 必須是 >=0 的整數。"] else []
    | none => ["stats." ++ name ++ " 必須是 >=0 的整數。"]
  let eqCheck := fun (name : String) (n : Nat) (msg : String) =>
    match (Json.getField stats name).bind Json.asInt with
    | some v => if v ≠ (n : Int) then [msg] else []
    | none => []
  requireInt "totalParagraphs" ++ requireInt "totalKeypoints" ++
  requireInt "totalTopics" ++ requireInt "totalCards" ++
  eqCheck "totalParagraphs" nPar "stats.totalParagraphs 與 paragraphs 長度不一致。" ++
  eqCheck "totalKeypoints" nKp "stats.totalKeypoints 與 keypoints 長度不一致。" ++
  eqCheck "totalTopics" nTop "stats.totalTopics 與 topics 長度不一致。" ++
  eqCheck "totalCards" nCard "stats.totalCards 與 cards 長度不一致。"

def intAscending (xs : List Int) : Bool :=
  xs = PyStr.sortLe (fun a b => decide (a ≤ b)) xs

def orderingErrors (topics : List Json) (cards : List Json)
    (pidIdx : List (String × Int)) (topicMin : List (String × Int)) :
    List String :=
  if topics.isEmpty || pidIdx.isEmpty then []
  else
    let mins := topics.filterMap (fun t =>
      match t with
      | .obj fields =>
        some (match Json.getField fields "id" with
              | some (.s tidS) => (PyStr.lookupA topicMin tidS).getD (10 ^ 9)
              | _ => 10 ^ 9)
      | _ => none)
    let errs :=
      if ¬ intAscending mins then
        ["topics 排序必須依 memberIds 中最小 paragraphs.idx 由小到大（deterministic）。"]
      else []
    let topicOrder : List (String × Int) :=
      topics.enum.foldl
        (fun acc pr =>
          match pr.2 with
          | .obj fields =>
            match Json.getField fields "id" with
            | some (.s tidS) => PyStr.upsertA acc tidS pr.1
            | _ => acc
          | _ => acc)
        []
    let cardTopicOrders := cards.filterMap (fun c =>
      match c with
      | .obj fields =>
        match Json.getField fields "topicId" with
        | some (.s tidS) => some ((PyStr.lookupA topicOrder tidS).getD (10 ^ 9))
        | _ => none
      | _ => none)
    errs ++
      (if ¬ intAscending cardTopicOrders then
        ["cards 排序必須依 topics 順序（deterministic）。"]
      else [])

def splitRuleErrors (memberCount : List (String × Int))
    (cardsByTopic : List (String × Nat)) : List String :=
  memberCount.filterMap (fun kv =>
    let (tid, member_count) := kv
    let expected : Nat := if member_count > 8 then 2 else 1
    let actual : Nat := (PyStr.lookupA cardsByTopic tid).getD 0
    if actual ≠ expected then
      some ("topic " ++ tid ++ " 需有 " ++ toString expected ++ " 張卡（memberIds=" ++
        toString member_count ++ "），實際為 " ++ toString actual ++ "。")
    else none)

/-- The issue list accumulated by `validate_deck` once all six top-level keys
are present (at which point the Python `errors` list is still empty). -/
def validateObjBody (kvs : List (String × Json)) : List String :=
  let metaJ := (Json.getField kvs "meta").getD Json.null
  let errs0 := metaErrors metaJ
  let (paragraphs, e1) := asArr ((Json.getField kvs "paragraphs").getD Json.null)
    "paragraphs 必須是 array。"
  let (keypoints, e2) := asArr ((Json.getField kvs "keypoints").getD Json.null)
    "keypoints 必須是 array。"
  let (topics, e3) := asArr ((Json.getField kvs "topics").getD Json.null)
    "topics 必須是 array。"
  let (cards, e4) := asArr ((Json.getField kvs "cards").getD Json.null)
    "cards 必須是 array。"
  let (stats, e5) := asObjFields ((Json.getField kvs "stats").getD Json.null)
    "stats 必須是 object。"
  let errs := errs0 ++ e1 ++ e2 ++ e3 ++ e4 ++ e5
  let (errs, pidIdx) := paragraphs.enum.foldl validateParagraph (errs, [])
  let errs := keypoints.enum.foldl (validateKeypoint pidIdx) errs
  let errs := errs ++ (if topics.length < 1 then ["topics 至少要有 1 個 topic。"] else [])
  let tAcc := topics.enum.foldl (validateTopic pidIdx) ⟨errs, [], [], []⟩
  let cAcc := cards.enum.foldl (validateCard tAcc.topicIds)
    ⟨tAcc.errs, [], []⟩
  let errs := cAcc.errs ++
    statsErrors stats paragraphs.length keypoints.length topics.length
      cards.length
  let errs := errs ++ orderingErrors topics cards pidIdx tAcc.topicMin
  errs ++ splitRuleErrors tAcc.memberCount cAcc.cardsByTopic

/-- `validate_deck` from `learn2cards/validate.py`.  Total on arbitrary JSON:
malformedness is reported as issues, and only a non-object short-circuits. -/
def validate_deck (deck : Json) : ValidationResult :=
  match deck with
  | .obj kvs =>
    let missing := topLevelKeys.filterMap (fun k =>
      if (Json.getField kvs k).isNone then some ("缺少頂層欄位：" ++ k) else none)
    if missing ≠ [] then ⟨false, missing⟩
    else
      let errors := validateObjBody kvs
      ⟨errors.isEmpty, errors⟩
  | _ => ⟨false, ["根物件必須是 JSON object。"]⟩

end L2c

namespace AgPkg

/-- `Paragraph` from `agent_a/models.py`. -/
structure Paragraph where
  id : String
  text : String
  headingLevel : Option Nat
  sectionPath : Option (List String)
  idx : Nat
deriving DecidableEq

structure Keypoint where
  paragraphId : String
  sentence : String
  keywords : List String
deriving DecidableEq

structure Topic where
  id : String
  title : String
  memberIds : List String
  summaryBullets : List String
deriving DecidableEq

structure Card where
  id : String
  topicId : String
  title : String
  bullets : List String
deriving DecidableEq

/-- `PipelineOptions` from `agent_a/models.py` (pydantic defaults). -/
structure PipelineOptions where
  language : String := "zh-TW"
  topicThreshold : ℚ := mkRat 3 4
  maxTopics : Nat := 5
  maxBulletsPerCard : Nat := 5
  targetBulletsPerCard : Nat := 4
  maxSummaryBulletsPerTopic : Nat := 5
  embeddingModel : String := "hashing_v1"
  embeddingDimension : Nat := 384
  embeddingBatchSize : Nat := 64
  maxChars : Nat := 200000
  temperature : ℚ := 0
  top_p : ℚ := 1
  seed : Option Int := none
  max_tokens : Option Nat := none
  deterministic : Bool := true
deriving DecidableEq

def defaultPipelineOptions : PipelineOptions := {}

/-- `normalize_whitespace` from `agent_a/text_utils.py`. -/
def normalize_whitespace (s : String) : String :=
  PyStr.strip ⟨PyStr.collapseWsL s.data⟩

/-- `_RE_HEADING = ^(#{1,6})\s+(.*\S)\s*$` (title must contain a non-space);
returns `(level, group(2).strip())`. -/
def segHeading (line : List Char) : Option (Nat × String) :=
  let hashes := line.takeWhile (· = '#')
  let rest := line.drop hashes.length
  if 1 ≤ hashes.length && hashes.length ≤ 6 then
    match rest with
    | c :: _ =>
      if PyStr.isSpaceChar c then
        let title := PyStr.stripL rest
        if title ≠ [] then some (hashes.length, ⟨title⟩) else none
      else none
    | [] => none
  else none

/-- `_RE_UL_ITEM` / `_RE_OL_ITEM` (`\d+\.` only); returns `group(1).strip()`. -/
def segListItem (line : List Char) : Option String :=
  let rest0 := PyStr.lstripL line
  match rest0 with
  | c :: cs =>
    if c = '-' || c = '*' || c = '+' then
      match cs with
      | d :: _ =>
        if PyStr.isSpaceChar d then
          let item := PyStr.stripL cs
          if item ≠ [] then some ⟨item⟩ else none
        else none
      | [] => none
    else
      let digits := rest0.takeWhile PyStr.isDigitChar
      if digits ≠ [] then
        match rest0.drop digits.length with
        | '.' :: ps =>
          match ps with
          | d :: _ =>
            if PyStr.isSpaceChar d then
              let item := PyStr.stripL ps
              if item ≠ [] then some ⟨item⟩ else none
            else none
          | [] => none
        | _ => none
      else none
  | [] => none

/-- `_RE_INDENT_CONT = ^\s{2,}(\S.*)$`; returns `group(1).strip()`. -/
def segIndentCont (line : List Char) : Option String :=
  let lead := line.takeWhile PyStr.isSpaceChar
  if 2 ≤ lead.length then
    let rest := line.drop lead.length
    if rest ≠ [] then some (PyStr.strip ⟨rest⟩) else none
  else none

/-- `segment_text` loop state. -/
structure SegSt where
  paragraphs : List Paragraph
  buf : List String
  stack : List (Nat × String)
  level : Option Nat

/-- `flush_buf` from `agent_a/segmenter.py`: ids are `p<idx>` with the
0-based position. -/
def segFlush (st : SegSt) : SegSt :=
  if st.buf = [] then st
  else
    let joined := normalize_whitespace (String.intercalate "\n" st.buf)
    if joined = "" then { st with buf := [] }
    else
      let idx := st.paragraphs.length
      { st with
        buf := [],
        paragraphs := st.paragraphs ++
          [⟨"p" ++ toString idx, joined, st.level,
            (if st.stack = [] then none else some (st.stack.map (·.2))), idx⟩] }

def segLoop : List (List Char) → SegSt → SegSt
  | [], st => segFlush st
  | line :: rest, st =>
    match segHeading line with
    | some (level, title) =>
      let st := segFlush st
      let stack := (st.stack.reverse.dropWhile (fun p => decide (level ≤ p.1))).reverse
      segLoop rest { st with stack := stack ++ [(level, title)], level := some level }
    | none =>
      if PyStr.stripL line = [] then segLoop rest (segFlush st)
      else
        match segListItem line with
        | some item => segLoop rest { segFlush st with buf := [item] }
        | none =>
          match segIndentCont line with
          | some cont =>
            if st.buf ≠ [] then segLoop rest { st with buf := st.buf ++ [cont] }
            else segLoop rest { st with buf := st.buf ++ [PyStr.strip ⟨line⟩] }
          | none => segLoop rest { st with buf := st.buf ++ [PyStr.strip ⟨line⟩] }

/-- `segment_text` from `agent_a/segmenter.py` (headings are not emitted as
paragraphs; body paragraphs are tagged with the current heading level). -/
def segment_text (text : String) : List Paragraph :=
  (segLoop (PyStr.splitOnCharL '\n' (PyStr.normNewlinesL text.data)) ⟨[], [], [], none⟩).paragraphs

end AgPkg

namespace AgPkg

/-- Substring test (`"zh" in lang`). -/
def containsSub (needle : List Char) : List Char → Bool
  | [] => needle.isEmpty
  | c :: cs => needle.isPrefixOf (c :: cs) || containsSub needle cs

/-- `is_cjk_heavy` from `agent_a/text_utils.py`. -/
def is_cjk_heavy (language : String) (text : String) : Bool :=
  if containsSub "zh".data (PyStr.lowerL language.data) then true
  else
    let cjk := (text.data.filter PyStr.isCJKChar).length
    decide (cjk ≥ max 10 (text.data.length / 20))

def isZhTermCh (c : Char) : Bool :=
  c = '。' || c = '！' || c = '？' || c = '!' || c = '?'

def isEnTermCh (c : Char) : Bool := c = '.' || c = '!' || c = '?'

/-- `re.split(r"[。！？!?]+", t)` (empty parts are filtered by the caller,
so splitting on single terminators is equivalent to splitting on runs). -/
def splitZhParts (cs : List Char) : List (List Char) :=
  cs.foldr
    (fun c acc =>
      match acc with
      | [] => if isZhTermCh c then [[], []] else [[c]]
      | r :: rs => if isZhTermCh c then [] :: r :: rs else (c :: r) :: rs)
    [[]]

/-- `re.split(r"(?<=[.!?])\s+", t)`: break at a whitespace run that follows a
terminator; the run itself is the separator.  Structural via fuel. -/
def splitEnPartsFuel : Nat → List Char → List Char → List (List Char)
  | 0, cur, rest => [cur.reverse ++ rest]
  | _ + 1, cur, [] => [cur.reverse]
  | fuel + 1, cur, c :: cs =>
    if PyStr.isSpaceChar c && (match cur with | p :: _ => isEnTermCh p | [] => false) then
      cur.reverse :: splitEnPartsFuel fuel [] (cs.dropWhile PyStr.isSpaceChar)
    else
      splitEnPartsFuel fuel (c :: cur) cs

def splitEnParts (cs : List Char) : List (List Char) :=
  splitEnPartsFuel cs.length [] cs

/-- `split_sentences` from `agent_a/text_utils.py`. -/
def split_sentences (text : String) (language : String) : List String :=
  let t := normalize_whitespace text
  if t = "" then []
  else
    let parts := if is_cjk_heavy language t then splitZhParts t.data else splitEnParts t.data
    (parts.map (fun p => PyStr.strip ⟨p⟩)).filter (fun p => p ≠ "")

/-- `re.findall(r"[一-鿿]{2,4}", text)`: greedy 2–4-char window over each CJK
run, resuming after each match.  Structural via fuel. -/
def scanCJK24Fuel : Nat → List Char → List String
  | 0, _ => []
  | _ + 1, [] => []
  | fuel + 1, c :: cs =>
    if PyStr.isCJKChar c then
      let run := (c :: cs).takeWhile PyStr.isCJKChar
      if 2 ≤ run.length then
        let tok := run.take 4
        (⟨tok⟩ : String) :: scanCJK24Fuel fuel ((c :: cs).drop tok.length)
      else scanCJK24Fuel fuel cs
    else scanCJK24Fuel fuel cs

def scanCJK24 (cs : List Char) : List String := scanCJK24Fuel cs.length cs

/-- `extract_cjk_keywords` from `agent_a/text_utils.py`. -/
def extract_cjk_keywords (text : String) (max_keywords : Nat) : List String :=
  let candidates := scanCJK24 text.data
  if candidates = [] then []
  else
    ((PyStr.rankByFreqThenStr (PyStr.countOcc candidates)).take max_keywords).map (·.1)

def isWordCh (c : Char) : Bool :=
  PyStr.isAlphaChar c || PyStr.isDigitChar c || c = '_' || c = '-'

/-- `re.findall(r"[A-Za-z][A-Za-z0-9_-]{1,}", text)`.  Structural via fuel. -/
def scanLatinFuel : Nat → List Char → List String
  | 0, _ => []
  | _ + 1, [] => []
  | fuel + 1, c :: cs =>
    if PyStr.isAlphaChar c then
      let rest := cs.takeWhile isWordCh
      if rest ≠ [] then
        (⟨c :: rest⟩ : String) :: scanLatinFuel fuel (cs.drop rest.length)
      else scanLatinFuel fuel cs
    else scanLatinFuel fuel cs

def scanLatin (cs : List Char) : List String := scanLatinFuel cs.length cs

def _EN_STOPWORDS : List String :=
  ["the", "a", "an", "and", "or", "to", "of", "in", "on", "for", "with", "as",
   "at", "by", "from", "is", "are", "was", "were", "be", "been", "being", "it",
   "this", "that", "these", "those", "we", "you", "they", "i", "he", "she",
   "them", "us", "our", "your", "their", "not", "can", "could", "should",
   "would", "may", "might", "will", "just", "also", "than", "then", "there",
   "here", "about", "into", "over", "under"]

/-- `extract_latin_keywords` from `agent_a/text_utils.py` (no fallback token:
a text without candidates yields `[]`). -/
def extract_latin_keywords (text : String) (max_keywords : Nat) : List String :=
  let candidates := (scanLatin text.data).map (fun w => ⟨PyStr.lowerL w.data⟩)
  let kept := candidates.filter
    (fun w => ¬ _EN_STOPWORDS.contains w && ¬ (w.data.length ≤ 2))
  ((PyStr.rankByFreqThenStr (PyStr.countOcc kept)).take max_keywords).map (·.1)

/-- `extract_keypoints` from `agent_a/keypoints.py`. -/
def extract_keypoints (paragraphs : List Paragraph) (options : PipelineOptions) :
    List Keypoint :=
  paragraphs.map (fun p =>
    let sentences := split_sentences p.text options.language
    let sentence := match sentences with | sf :: _ => sf | [] => PyStr.strip p.text
    let sentence := PyStr.strip sentence
    let sentence :=
      if sentence.data.length > 280 then
        PyStr.rstripS ⟨sentence.data.take 277⟩ ++ "..."
      else sentence
    let keywords :=
      if is_cjk_heavy options.language p.text then extract_cjk_keywords p.text 5
      else extract_latin_keywords p.text 5
    ⟨p.id, sentence, keywords.take 5⟩)

/-- `bullets_for` from `agent_a/cards.py`. -/
def bullets_for (keypoints : List Keypoint) (options : PipelineOptions)
    (member_ids : List String) : List String :=
  let kpOf := fun pid => keypoints.reverse.find? (fun k => k.paragraphId == pid)
  let sentences := member_ids.filterMap (fun pid =>
    match kpOf pid with
    | some k => if PyStr.strip k.sentence ≠ "" then some k.sentence else none
    | none => none)
  let bullets := PyStr.uniquePreserve sentences
  let target := max 1 (min options.targetBulletsPerCard options.maxBulletsPerCard)
  let bullets :=
    bullets.take (max 1 (min (min bullets.length options.maxBulletsPerCard) target))
  if bullets ≠ [] then bullets else ["（內容不足，請補充更多段落或文字）"]

/-- `build_cards` from `agent_a/cards.py`: a topic with more than 8 members is
split at `len(member_ids) // 2` (floor). -/
def build_cards (topics : List Topic) (keypoints : List Keypoint)
    (options : PipelineOptions) : List Card :=
  topics.foldl
    (fun (cards : List Card) t =>
      let member_ids := t.memberIds
      if member_ids.length > 8 then
        let mid := member_ids.length / 2
        cards ++
          [⟨"c" ++ toString (cards.length + 1), t.id, t.title ++ "（第1部分）",
            bullets_for keypoints options (member_ids.take mid)⟩,
           ⟨"c" ++ toString (cards.length + 2), t.id, t.title ++ "（第2部分）",
            bullets_for keypoints options (member_ids.drop mid)⟩]
      else
        cards ++
          [⟨"c" ++ toString (cards.length + 1), t.id, t.title,
            bullets_for keypoints options member_ids⟩])
    []

open Classical in
/-- `np.linalg.norm`. -/
noncomputable def vnorm (v : List ℝ) : ℝ :=
  Real.sqrt ((v.map (fun x => x * x)).sum)

open Classical in
/-- `_update_centroid` from `agent_a/cluster.py`: online mean of the (already
normalized) centroid with the new vector, then renormalize. -/
noncomputable def _update_centroid (centroid v : List ℝ) (n_members : Nat) : List ℝ :=
  let nw := List.zipWith
    (fun c x => (c * (n_members : ℝ) + x) / ((n_members : ℝ) + 1)) centroid v
  let norm := vnorm nw
  if norm > 0 then nw.map (fun x => x / norm) else nw

/-- The centroid maintained by `cluster_topics` (`agent_a/cluster.py`,
lines 57 and 72–75) for one topic that receives `rest` one member at a time:
it starts as the first member's embedding and each addition applies
`_update_centroid` with the current member count. -/
noncomputable def centroid_after_additions (v0 : List ℝ) (rest : List (List ℝ)) :
    List ℝ :=
  (rest.foldl
    (fun (acc : List ℝ × Nat) v => (_update_centroid acc.1 v acc.2, acc.2 + 1))
    (v0, 1)).1

end AgPkg

namespace AgOne

/-- Paragraph dicts produced by `split_paragraphs` in `backend/agent_a.py`
(ids `p1..pn` filled in by the final renumbering loop). -/
structure ParaDict where
  id : String
  idx : Nat
  text : String
  headingLevel : Option Nat
  sectionPath : Option (List String)
deriving DecidableEq

structure ProtoP where
  text : String
  headingLevel : Option Nat
  sectionPath : Option (List String)
deriving DecidableEq

/-- `_is_heading`: `^(#{1,6})\s+(.+?)\s*$` → `(level, group(2).strip())`
(the lazy group plus `\s*$` makes the title the stripped remainder, and it
must be non-empty). -/
def _is_heading (line : List Char) : Option (Nat × String) :=
  let hashes := line.takeWhile (· = '#')
  let rest := line.drop hashes.length
  if 1 ≤ hashes.length && hashes.length ≤ 6 then
    match rest with
    | c :: _ =>
      if PyStr.isSpaceChar c then
        let title := PyStr.stripL rest
        if title ≠ [] then some (hashes.length, ⟨title⟩) else none
      else none
    | [] => none
  else none

/-- `_is_list_item`: bullet `[-*+]` or `(\d+)[.)]`; returns
`(content.strip(), indent_spaces)`. -/
def _is_list_item (line : List Char) : Option (String × Nat) :=
  let lead := line.takeWhile PyStr.isSpaceChar
  let rest0 := line.drop lead.length
  match rest0 with
  | c :: cs =>
    if c = '-' || c = '*' || c = '+' then
      match cs with
      | d :: _ =>
        if PyStr.isSpaceChar d then
          let item := PyStr.stripL cs
          if item ≠ [] then some (⟨item⟩, lead.length) else none
        else none
      | [] => none
    else
      let digits := rest0.takeWhile PyStr.isDigitChar
      if digits ≠ [] then
        match rest0.drop digits.length with
        | p :: ps =>
          if p = '.' || p = ')' then
            match ps with
            | d :: _ =>
              if PyStr.isSpaceChar d then
                let item := PyStr.stripL ps
                if item ≠ [] then some (⟨item⟩, lead.length) else none
              else none
            | [] => none
          else none
        | [] => none
      else none
  | [] => none

/-- `re.match(r"^\s*```", line)`. -/
def isFenceLine (line : List Char) : Bool :=
  "```".data.isPrefixOf (PyStr.lstripL line)

/-- Mutable state of the `split_paragraphs` while-loop. -/
structure St where
  paragraphs : List ProtoP
  section_path : List String
  in_code : Bool
  buf : List String
  buf_section_path : Option (List String)

/-- `flush_buf`: a paragraph carries `sectionPath` only when
`buf_section_path` is truthy (non-`None` *and* non-empty). -/
def flush (st : St) : St :=
  let content := PyStr.strip (String.intercalate "\n" st.buf)
  let st' :=
    if content ≠ "" then
      { st with
        paragraphs := st.paragraphs ++
          [⟨content, none,
            match st.buf_section_path with
            | some (sp@(_ :: _)) => some sp
            | _ => none⟩] }
    else st
  { st' with buf := [], buf_section_path := none }

/-- The continuation-absorbing inner `while j < len(lines)` loop of the
list-item branch; returns the absorbed lines and the remaining input. -/
def absorbCont (item_indent : Nat) : List (List Char) →
    List String × List (List Char)
  | [] => ([], [])
  | nxt :: rest =>
    if PyStr.stripL nxt = [] then ([], nxt :: rest)
    else if (_is_heading nxt).isSome || (_is_list_item nxt).isSome then
      ([], nxt :: rest)
    else
      let cont_indent := (nxt.takeWhile PyStr.isSpaceChar).length
      if cont_indent > item_indent then
        let (more, rem) := absorbCont item_indent rest
        (PyStr.strip ⟨nxt⟩ :: more, rem)
      else ([], nxt :: rest)

/-- The `while i < len(lines)` loop (structural via a line-count fuel; every
iteration consumes at least one line). -/
def mainLoop : Nat → List (List Char) → St → St
  | 0, _, st => flush st
  | _ + 1, [], st => flush st
  | fuel + 1, line :: rest, st =>
    if isFenceLine line then
      if ¬ st.in_code then
        let st := flush st
        mainLoop fuel rest
          { st with
            in_code := true,
            buf_section_path := some st.section_path,
            buf := [⟨line⟩] }
      else
        let st := flush { st with buf := st.buf ++ [⟨line⟩] }
        mainLoop fuel rest { st with in_code := false }
    else if st.in_code then
      let st :=
        match st.buf_section_path with
        | none => { st with buf_section_path := some st.section_path }
        | some _ => st
      mainLoop fuel rest { st with buf := st.buf ++ [⟨line⟩] }
    else
      match _is_heading line with
      | some (level, title) =>
        let st := flush st
        let section_path := st.section_path.take (level - 1) ++ [title]
        mainLoop fuel rest
          { st with
            section_path := section_path,
            paragraphs := st.paragraphs ++
              [⟨title, some level, some section_path⟩] }
      | none =>
        if PyStr.stripL line = [] then mainLoop fuel rest (flush st)
        else
          match _is_list_item line with
          | some (item_text, item_indent) =>
            let st := flush st
            let (conts, rem) := absorbCont item_indent rest
            let ptext := PyStr.strip (String.intercalate "\n" (item_text :: conts))
            mainLoop fuel rem
              { st with
                paragraphs := st.paragraphs ++
                  [⟨ptext, none,
                    if st.section_path ≠ [] then some st.section_path else none⟩] }
          | none =>
            let st :=
              match st.buf_section_path with
              | none => { st with buf_section_path := some st.section_path }
              | some _ => st
            mainLoop fuel rest { st with buf := st.buf ++ [⟨line⟩] }

/-- `split_paragraphs` from `backend/agent_a.py`: headings *are* emitted as
their own paragraphs (with `headingLevel` and a `sectionPath` that includes
the heading itself); ids `p1..pn` and `idx = i` are filled at the end. -/
def split_paragraphs (text : String) : List ParaDict :=
  let lines := PyStr.splitOnCharL '\n' (PyStr.normNewlinesL text.data)
  let final := mainLoop lines.length lines ⟨[], [], false, [], none⟩
  final.paragraphs.enum.map (fun pr =>
    ⟨"p" ++ toString (pr.1 + 1), pr.1, pr.2.text, pr.2.headingLevel, pr.2.sectionPath⟩)

end AgOne

namespace MainPy

def DEFAULT_TOPIC_THRESHOLD : ℚ := mkRat 3 4

def MAX_TEXT_CHARS : Nat := 20000

structure Paragraph where
  id : String
  text : String
  summary : String
  keywords : List String
  sourceIndex : Nat
deriving DecidableEq

structure Topic where
  id : String
  title : String
  memberIds : List String
deriving DecidableEq

structure Card where
  id : String
  topicId : String
  title : String
  bullets : List String
deriving DecidableEq

structure DeckStats where
  paragraphCount : Nat
  topicCount : Nat
  cardCount : Nat
deriving DecidableEq

/-- The deck dict returned by `build_deck` in `backend/main.py` (the legacy
"slim" schema). -/
structure MainDeck where
  paragraphs : List Paragraph
  topics : List Topic
  cards : List Card
  stats : DeckStats
deriving DecidableEq

def _has_cjk (text : String) : Bool := text.data.any PyStr.isCJKChar

/-- `_normalize_text`: unify newlines, strip line tails, strip the whole. -/
def _normalize_text (text : String) : String :=
  let t := PyStr.normNewlinesL text.data
  let lines := PyStr.splitOnCharL '\n' t
  PyStr.strip (String.intercalate "\n" (lines.map (fun l => PyStr.rstripS ⟨l⟩)))

/-- `decode_cli_text` from `backend/main.py`: un-escape `\r`, `\n`, `\"` and
`\\` (in that order) before any other processing. -/
def decode_cli_text (text : String) : String :=
  if text = "" then text
  else
    let out := PyStr.replaceAllL "\\r".data "\r".data text.data
    let out := PyStr.replaceAllL "\\n".data "\n".data out
    let out := PyStr.replaceAllL "\\\"".data "\"".data out
    let out := PyStr.replaceAllL "\\\\".data "\\".data out
    ⟨out⟩

/-- `_clip`. -/
def _clip (s : String) (max_len : Nat) : String :=
  let s := PyStr.strip s
  if s.data.length ≤ max_len then s
  else PyStr.rstripS ⟨s.data.take (max_len - 1)⟩ ++ "…"

/-- `_HEADING_RE = ^\s{0,3}#{1,6}\s+\S` (prefix match). -/
def headingPrefLen (line : List Char) : Option Nat :=
  let lead := line.takeWhile PyStr.isSpaceChar
  if lead.length ≤ 3 then
    let afterLead := line.drop lead.length
    let hashes := afterLead.takeWhile (· = '#')
    if 1 ≤ hashes.length && hashes.length ≤ 6 then
      let rest := afterLead.drop hashes.length
      let ws := rest.takeWhile PyStr.isSpaceChar
      if ws ≠ [] && rest.drop ws.length ≠ [] then
        some (lead.length + hashes.length + ws.length)
      else none
    else none
  else none

def isHeadingLine (line : List Char) : Bool := (headingPrefLen line).isSome

/-- `_LIST_RE = ^\s*(?:[-*+]\s+|\d+\.\s+)\S`. -/
def isListLine (line : List Char) : Bool :=
  let rest0 := PyStr.lstripL line
  match rest0 with
  | c :: cs =>
    if c = '-' || c = '*' || c = '+' then
      let ws := cs.takeWhile PyStr.isSpaceChar
      ws ≠ [] && cs.drop ws.length ≠ []
    else
      let digits := rest0.takeWhile PyStr.isDigitChar
      if digits ≠ [] then
        match rest0.drop digits.length with
        | '.' :: ps =>
          let ws := ps.takeWhile PyStr.isSpaceChar
          ws ≠ [] && ps.drop ws.length ≠ []
        | _ => false
      else false
  | [] => false

/-- `split_paragraphs` from `backend/main.py`: headings start a block and are
kept with the following content; each list line is its own block. -/
def split_paragraphs (raw_text : String) : List String :=
  let text := _normalize_text raw_text
  if text = "" then []
  else
    let lines := PyStr.splitOnCharL '\n' text.data
    let flushAcc := fun (blocks : List String) (buf : List String) =>
      let joined := PyStr.strip (String.intercalate "\n" buf)
      if joined ≠ "" then blocks ++ [joined] else blocks
    let (blocks, buf) := lines.foldl
      (fun (acc : List String × List String) line =>
        let (blocks, buf) := acc
        if PyStr.stripL line = [] then (flushAcc blocks buf, [])
        else if isListLine line then
          (flushAcc blocks buf ++ [PyStr.strip ⟨line⟩], [])
        else if isHeadingLine line then
          (flushAcc blocks buf, [PyStr.strip ⟨line⟩])
        else (blocks, buf ++ [PyStr.strip ⟨line⟩]))
      ([], [])
    flushAcc blocks buf

def isSentTermCh (c : Char) : Bool :=
  c = '。' || c = '！' || c = '？' || c = '.' || c = '!' || c = '?'

/-- `_SENTENCE_SPLIT_RE = (?<=[。！？.!?])\s+` first part. -/
def splitSentFirst : List Char → List Char
  | [] => []
  | [c] => [c]
  | a :: b :: cs =>
    if isSentTermCh a && PyStr.isSpaceChar b then [a]
    else a :: splitSentFirst (b :: cs)

/-- `summarize` from `backend/main.py`. -/
def summarize (paragraph_text : String) : String :=
  let one_line : String := ⟨PyStr.collapseWsL (PyStr.stripL paragraph_text.data)⟩
  if one_line = "" then ""
  else _clip (PyStr.strip ⟨splitSentFirst one_line.data⟩) 60

def _STOPWORDS_ZH : List String :=
  ["我們", "你們", "他們", "以及", "但是", "因此", "因為", "如果", "目前",
   "可以", "需要", "不需要", "不得", "必須", "功能", "需求", "規範", "系統",
   "資料", "內容"]

def _STOPWORDS_EN : List String :=
  ["the", "and", "for", "with", "that", "this", "from", "into", "your", "you",
   "are", "was", "were", "will", "can", "should", "could", "would", "not"]

/-- `_ZH_TOKEN_RE = [一-鿿]{2,}` maximal runs (structural via fuel). -/
def scanZhRunsFuel : Nat → List Char → List String
  | 0, _ => []
  | _ + 1, [] => []
  | fuel + 1, c :: cs =>
    if PyStr.isCJKChar c then
      let run := (c :: cs).takeWhile PyStr.isCJKChar
      if 2 ≤ run.length then
        (⟨run⟩ : String) :: scanZhRunsFuel fuel ((c :: cs).drop run.length)
      else scanZhRunsFuel fuel cs
    else scanZhRunsFuel fuel cs

def scanZhRuns (cs : List Char) : List String := scanZhRunsFuel cs.length cs

def isWordCh2 (c : Char) : Bool :=
  PyStr.isAlphaChar c || PyStr.isDigitChar c || c = '_' || c = '-'

/-- `_EN_TOKEN_RE = [A-Za-z][A-Za-z0-9_-]{2,}` (three or more characters). -/
def scanEnTokensFuel : Nat → List Char → List String
  | 0, _ => []
  | _ + 1, [] => []
  | fuel + 1, c :: cs =>
    if PyStr.isAlphaChar c then
      let rest := cs.takeWhile isWordCh2
      if 2 ≤ rest.length then
        (⟨c :: rest⟩ : String) :: scanEnTokensFuel fuel (cs.drop rest.length)
      else scanEnTokensFuel fuel cs
    else scanEnTokensFuel fuel cs

def scanEnTokens (cs : List Char) : List String := scanEnTokensFuel cs.length cs

def stripMdChar (c : Char) : Bool :=
  c = '`' || c = '*' || c = '_' || c = '>' || c = '[' || c = ']' || c = '(' || c = ')'

/-- Keyword selection loop of `extract_keywords` (append `_clip(token, 20)`
when the raw token is non-empty and not yet present, stop at the cap). -/
def pickKw (cap : Nat) : List String → List String → List String
  | [], out => out
  | tok :: rest, out =>
    let out :=
      if tok ≠ "" && ¬ out.contains tok then out ++ [_clip tok 20] else out
    if cap ≤ out.length then out else pickKw cap rest out

/-- `extract_keywords` from `backend/main.py`. -/
def extract_keywords (paragraph_text : String) (max_keywords : Nat) : List String :=
  let text := PyStr.strip paragraph_text
  if text = "" then ["重點"]
  else
    let cleaned :=
      match headingPrefLen text.data with
      | some k => text.data.drop k
      | none => text.data
    let cleaned := cleaned.map (fun c => if stripMdChar c then ' ' else c)
    let cleaned : String := PyStr.strip ⟨PyStr.collapseWsL cleaned⟩
    let tokens :=
      if _has_cjk cleaned then
        (scanZhRuns cleaned.data).filter (fun t => ¬ _STOPWORDS_ZH.contains t)
      else
        ((scanEnTokens cleaned.data).map (fun t => ⟨PyStr.lowerL t.data⟩)).filter
          (fun t => ¬ _STOPWORDS_EN.contains t)
    if tokens = [] then
      let s := summarize cleaned
      [if _clip s 12 ≠ "" then _clip s 12 else "重點"]
    else
      let ranked := PyStr.rankByFreqThenStr (PyStr.countOcc tokens)
      let out := pickKw (max 1 (min max_keywords 5)) (ranked.map (·.1)) []
      if out ≠ [] then out else ["重點"]

end MainPy

namespace MainPy

/-- `_tokens_for_embedding` from `backend/main.py`. -/
def _tokens_for_embedding (text : String) : List String :=
  let text := PyStr.strip text
  if text = "" then []
  else if _has_cjk text then (scanZhRuns text.data).take 128
  else ((scanEnTokens text.data).map (fun t => (⟨PyStr.lowerL t.data⟩ : String))).take 128

/-- Modelled from the spec: `embed_text` hashes each token with the standard
library's `blake2b(digest_size=8)` (external to this repository); §4.3 only
requires a stable deterministic hash, modelled by eight pseudo-bytes of a
polynomial hash of the code points. -/
def blake2b8 (s : String) : List Nat :=
  let h := s.data.foldl
    (fun acc c => (acc * 1099511628211 + c.toNat) % 18446744073709551616) 5381
  [h % 256, h / 256 % 256, h / 65536 % 256, h / 16777216 % 256,
   h / 4294967296 % 256, h / 1099511627776 % 256,
   h / 281474976710656 % 256, h / 72057594037927936 % 256]

noncomputable def updAddBy : List ℝ → Nat → ℝ → List ℝ
  | [], _, _ => []
  | x :: xs, 0, d => (x + d) :: xs
  | x :: xs, n + 1, d => x :: updAddBy xs n d

open Classical in
noncomputable def vnorm (v : List ℝ) : ℝ :=
  Real.sqrt ((v.map (fun x => x * x)).sum)

open Classical in
/-- `embed_text` from `backend/main.py` (feature hashing, L2-normalized). -/
noncomputable def embed_text (text : String) (dim : Nat) : List ℝ :=
  let tokens := _tokens_for_embedding text
  if tokens = [] then List.replicate dim (0 : ℝ)
  else
    let vec := tokens.foldl
      (fun vec tok =>
        let h := blake2b8 tok
        let idx := (h.getD 0 0 + h.getD 1 0 * 256 + h.getD 2 0 * 65536 +
          h.getD 3 0 * 16777216) % dim
        let sign : ℝ := if h.getD 4 0 % 2 = 1 then -1 else 1
        updAddBy vec idx sign)
      (List.replicate dim (0 : ℝ))
    let norm := vnorm vec
    if norm ≠ 0 then vec.map (fun x => x / norm) else vec

open Classical in
/-- `_safe_div`. -/
noncomputable def _safe_div (a b : ℝ) : ℝ := if b ≠ 0 then a / b else 0

/-- `cosine_sim` (tolerant form with norms recomputed). -/
noncomputable def cosine_sim (a b : List ℝ) : ℝ :=
  _safe_div ((List.zipWith (· * ·) a b).sum) (vnorm a * vnorm b)

noncomputable def addInto : List ℝ → List ℝ → List ℝ
  | os, [] => os
  | [], _ :: _ => []
  | o :: os, x :: xs => (o + x) :: addInto os xs

open Classical in
/-- `mean_vector` from `backend/main.py`. -/
noncomputable def mean_vector (vectors : List (List ℝ)) : List ℝ :=
  match vectors with
  | [] => []
  | v0 :: _ =>
    let dim := v0.length
    let out := vectors.foldl addInto (List.replicate dim (0 : ℝ))
    let out := out.map (fun x => x / (vectors.length : ℝ))
    let norm := vnorm out
    if norm ≠ 0 then out.map (fun x => x / norm) else out

structure Cluster where
  member_indices : List Nat
  centroid : List ℝ

open Classical in
/-- `cluster_by_threshold` from `backend/main.py` (epsilon-guarded strict
comparison for the deterministic tie-break). -/
noncomputable def cluster_by_threshold (embeddings : List (List ℝ))
    (threshold : ℚ) (max_topics : Nat) : List Cluster :=
  embeddings.enum.foldl
    (fun clusters pr =>
      let (idx, emb) := pr
      if clusters = [] then [⟨[idx], emb⟩]
      else
        let best := clusters.enum.foldl
          (fun (acc : Nat × ℝ) cp =>
            let sim := cosine_sim emb cp.2.centroid
            if sim > acc.2 + (1 : ℝ) / 10 ^ 12 then (cp.1, sim) else acc)
          (0, -1)
        if best.2 ≥ (threshold : ℝ) ∨ clusters.length ≥ max_topics then
          let c := clusters.getD best.1 ⟨[], []⟩
          let members := c.member_indices ++ [idx]
          clusters.set best.1
            ⟨members, mean_vector (members.map (fun k => embeddings.getD k []))⟩
        else clusters ++ [⟨[idx], emb⟩])
    []

/-- `choose_topic_title` from `backend/main.py`. -/
def choose_topic_title (member_paragraphs : List Paragraph) : String :=
  let kw := PyStr.countOcc
    ((member_paragraphs.map (fun p => p.keywords.filter (fun k => k ≠ ""))).flatten)
  if kw ≠ [] then
    match PyStr.rankByFreqThenStr kw with
    | (token, _) :: _ =>
      let t := _clip token 30
      if t ≠ "" then t else "未命名主題"
    | [] => "未命名主題"
  else
    match member_paragraphs with
    | p :: _ => _clip p.summary 30
    | [] => "未命名主題"

def sortBySourceIndex (ps : List Paragraph) : List Paragraph :=
  PyStr.sortLe (fun a b => decide (a.sourceIndex ≤ b.sourceIndex)) ps

/-- `build_card_bullets` from `backend/main.py`. -/
def build_card_bullets (member_paragraphs : List Paragraph) (max_bullets : Nat) :
    List String :=
  let step := fun (bullets : List String) (p : Paragraph) =>
    if bullets.length ≥ max_bullets then bullets
    else
      let s := PyStr.strip p.summary
      if s ≠ "" && ¬ bullets.contains s then bullets ++ [s] else bullets
  let bullets := (sortBySourceIndex member_paragraphs).foldl step []
  let bullets := if bullets = [] then ["（此主題暫無可用摘要）"] else bullets
  bullets.take (max 1 (min max_bullets 5))

/-- `generate_cards_for_topic` from `backend/main.py` (ceil split for more
than eight members). -/
def generate_cards_for_topic (topic_title : String)
    (member_paragraphs : List Paragraph) (max_bullets : Nat) :
    List (String × List String) :=
  let members_sorted := sortBySourceIndex member_paragraphs
  if members_sorted.length > 8 then
    let mid := (members_sorted.length + 1) / 2
    [(topic_title ++ "（上）", build_card_bullets (members_sorted.take mid) max_bullets),
     (topic_title ++ "（下）", build_card_bullets (members_sorted.drop mid) max_bullets)]
  else [(topic_title, build_card_bullets members_sorted max_bullets)]

end MainPy

namespace MainPy

def defaultParagraph : Paragraph := ⟨"", "", "", [], 0⟩

open Classical in
/-- The body of `build_deck` after its first statement
`decoded = decode_cli_text(text)`; everything below line 437 of
`backend/main.py` reads only `decoded`. -/
noncomputable def build_deck_rest (decoded : String) (topic_threshold : ℚ)
    (max_topics max_bullets : Nat) : Except String MainDeck := do
  let normalized := _normalize_text decoded
  if normalized = "" then throw "輸入為空：請提供非空的純文字字串。"
  if normalized.data.length > MAX_TEXT_CHARS then
    throw ("輸入過長：目前上限為 " ++ toString MAX_TEXT_CHARS ++ " 字元，實際為 " ++
      toString normalized.data.length ++ "。")
  let blocks := split_paragraphs normalized
  if blocks = [] then throw "無法切分出任何段落：請確認輸入文字內容。"
  let paragraphs : List Paragraph := blocks.enum.map (fun pr =>
    let (idx, block) := pr
    ⟨"p" ++ toString (idx + 1), block, summarize block, extract_keywords block 5,
     idx⟩)
  let embeddings := paragraphs.map (fun p =>
    embed_text
      (p.summary ++ " " ++ String.intercalate " " p.keywords ++ "\n" ++ p.text)
      128)
  let clusters := cluster_by_threshold embeddings topic_threshold max_topics
  let clusters :=
    if clusters.isEmpty then
      [⟨List.range paragraphs.length, mean_vector embeddings⟩]
    else clusters
  let topics_unsorted : List Topic := clusters.enum.map (fun pr =>
    let (ci, c) := pr
    let member := c.member_indices.map (fun k => paragraphs.getD k defaultParagraph)
    ⟨"t" ++ toString (ci + 1), choose_topic_title member,
     (sortBySourceIndex member).map (·.id)⟩)
  let p_index := fun (pid : String) =>
    (paragraphs.reverse.find? (fun p => p.id == pid)).map
      (fun p => (p.sourceIndex : Int))
  let topicKey := fun (t : Topic) =>
    (match t.memberIds.filterMap p_index with
     | [] => (10 ^ 9 : Int)
     | v :: vs => vs.foldl min v : Int)
  let topics_sorted :=
    PyStr.sortLe (fun a b => decide (topicKey a ≤ topicKey b)) topics_unsorted
  let cards : List Card := topics_sorted.foldl
    (fun (cards : List Card) topic =>
      let member_paras := paragraphs.filter (fun p => topic.memberIds.contains p.id)
      let card_defs := generate_cards_for_topic topic.title member_paras max_bullets
      cards ++ card_defs.enum.map (fun pr =>
        ⟨"c" ++ toString (cards.length + pr.1 + 1), topic.id,
         (if _clip pr.2.1 60 ≠ "" then _clip pr.2.1 60 else "未命名卡片"),
         pr.2.2⟩))
    []
  Except.ok
    ⟨(sortBySourceIndex paragraphs).map (fun p =>
        { p with keywords := p.keywords.take 5 }),
     topics_sorted.map (fun t =>
        { t with title := if t.title ≠ "" then t.title else "未命名主題" }),
     cards.map (fun c => { c with bullets := c.bullets.take 5 }),
     ⟨paragraphs.length, topics_sorted.length, cards.length⟩⟩

/-- `build_deck` from `backend/main.py`: the CLI text is un-escaped by
`decode_cli_text` before any normalization or segmentation (the `debug`
parameter only controls stderr prints and does not affect the returned deck,
so it is omitted here). -/
noncomputable def build_deck (text : String) (topic_threshold : ℚ)
    (max_topics max_bullets : Nat) : Except String MainDeck :=
  build_deck_rest (decode_cli_text text) topic_threshold max_topics max_bullets

end MainPy

/-! Concrete inputs used by the claim theorems. -/

/-- The deck `analyze_text` produces for the single-Han-character input `天`
(whose only paragraph has no extractable token, hence no keywords and an
all-zero embedding); `now` is the timestamp argument. -/
def tianDeck (now : String) : L2c.Deck :=
  ⟨⟨"text", now, "1.0.0"⟩,
   [⟨"p1", 0, "天", none, none⟩],
   [⟨"p1", "天", []⟩],
   [⟨"t1", "未命名主題", ["p1"], ["天"]⟩],
   [⟨"c1", "t1", "未命名主題", ["天"]⟩],
   ⟨1, 1, 1, 1⟩,
   none⟩

/-- The two-paragraph Markdown example from the specification. -/
def exMd : String :=
  "# Title\n\nFirst paragraph about cats.\n\nSecond paragraph about dogs."

/-- A topic with nine members, and keypoints giving each member a distinct
non-empty sentence. -/
def topic9 : AgPkg.Topic :=
  ⟨"t1", "T", ["p1", "p2", "p3", "p4", "p5", "p6", "p7", "p8", "p9"], []⟩

def kps9 : List AgPkg.Keypoint :=
  [⟨"p1", "s1", []⟩, ⟨"p2", "s2", []⟩, ⟨"p3", "s3", []⟩, ⟨"p4", "s4", []⟩,
   ⟨"p5", "s5", []⟩, ⟨"p6", "s6", []⟩, ⟨"p7", "s7", []⟩, ⟨"p8", "s8", []⟩,
   ⟨"p9", "s9", []⟩]

/-- Options with the bullet target raised to 5 so every gathered sentence is
kept. -/
def opts9 : AgPkg.PipelineOptions := { targetBulletsPerCard := 5 }

/-- The same nine-member topic and keypoints for the learn2cards variant. -/
def topic9L : L2c.TopicObj :=
  ⟨"t1", "T", ["p1", "p2", "p3", "p4", "p5", "p6", "p7", "p8", "p9"], []⟩

def kps9L : List L2c.KeypointObj :=
  [⟨"p1", "s1", []⟩, ⟨"p2", "s2", []⟩, ⟨"p3", "s3", []⟩, ⟨"p4", "s4", []⟩,
   ⟨"p5", "s5", []⟩, ⟨"p6", "s6", []⟩, ⟨"p7", "s7", []⟩, ⟨"p8", "s8", []⟩,
   ⟨"p9", "s9", []⟩]

/-- The `segment_text` numbering invariant: position `i` carries `idx = i`
and `id = "p" ++ i` (0-based). -/
def idsNumbered (ps : List AgPkg.Paragraph) : Prop :=
  ps.map AgPkg.Paragraph.idx = List.range ps.length ∧
  ps.map AgPkg.Paragraph.id =
    (List.range ps.length).map (fun i => "p" ++ toString i)

/-- C1: the round-trip invariant fails on the code.  `analyze_text` succeeds
on the input `天` but emits a keypoint with an empty `keywords` list, which
its own validator rejects, so `validate_deck` returns `ok = false` with one
issue instead of `ok = true` with none. -/
theorem C1_roundtrip_validation_fails :
    L2c.analyze_text "2026-01-01T00:00:00+00:00" "天" L2c.defaultOptions =
      Except.ok (tianDeck "2026-01-01T00:00:00+00:00") ∧
    L2c.validate_deck (L2c.deckToJson (tianDeck "2026-01-01T00:00:00+00:00")) =
      ⟨false, ["keypoints[0].keywords 長度必須介於 1~5。"]⟩ :=
  ⟨by decide, by decide⟩

/-- C4: a successfully produced deck whose (single) keypoint has an *empty*
keywords list: for the paragraph `天` tokenization yields nothing and
`_extract_keypoints` has no synthetic fallback left, contradicting the
claimed 1–5 bound. -/
theorem C4_keywords_can_be_empty :
    L2c.analyze_text "2026-01-02T00:00:00+00:00" "天" L2c.defaultOptions =
      Except.ok (tianDeck "2026-01-02T00:00:00+00:00") ∧
    (tianDeck "2026-01-02T00:00:00+00:00").keypoints.map L2c.KeypointObj.keywords =
      [[]] :=
  ⟨by decide, by decide⟩

/-- C5 counterexample: on the input `天` the embedder produces an exactly-zero
vector for every (here: the only) paragraph, yet `analyze_text` returns a
Deck instead of failing with an embedding error. -/
theorem C5_zero_vectors_deck_still_returned :
    L2c.analyze_text "2026-01-03T00:00:00+00:00" "天" L2c.defaultOptions =
      Except.ok (tianDeck "2026-01-03T00:00:00+00:00") ∧
    L2c._embed_paragraphs (tianDeck "2026-01-03T00:00:00+00:00").paragraphs
        (tianDeck "2026-01-03T00:00:00+00:00").keypoints
        L2c.defaultOptions.embedding_dim
        (L2c._resolve_language L2c.defaultOptions.language "天") =
      [List.replicate 256 (0 : ℝ)] :=
  ⟨by decide, rfl⟩

/-- C5 amended: `learn2cards.analyze_text` performs no all-zero-vector check:
there is an input for which every produced embedding vector is exactly zero
and a Deck is returned nonetheless. -/
theorem C5_no_all_zero_embedding_check :
    ∃ d : L2c.Deck,
      L2c.analyze_text "2026-01-04T00:00:00+00:00" "天" L2c.defaultOptions =
        Except.ok d ∧
      L2c._embed_paragraphs d.paragraphs d.keypoints
          L2c.defaultOptions.embedding_dim
          (L2c._resolve_language L2c.defaultOptions.language "天") =
        [List.replicate 256 (0 : ℝ)] :=
  ⟨tianDeck "2026-01-04T00:00:00+00:00", by decide, rfl⟩

/-- C8: determinism.  Two runs of `analyze_text` on the same text and options
differ at most in `meta.generatedAt`: overwriting the second run's timestamp
with the first run's yields exactly the first run's result, so `paragraphs`,
`keypoints`, `topics`, `cards`, `stats` (and `meta.source`/`schemaVersion`)
coincide. -/
theorem C8_determinism_up_to_timestamp :
    ∀ (now₁ now₂ text : String) (opt : L2c.AnalyzeOptions),
      L2c.analyze_text now₁ text opt =
        (L2c.analyze_text now₂ text opt).map
          (fun d => { d with meta := { d.meta with generatedAt := now₁ } }) := by
  intro now₁ now₂ text opt
  unfold L2c.analyze_text
  cases L2c.analyze_core text opt <;> rfl

/-- C2 counterexample: `agent_a/cards.build_cards` splits a nine-member topic
at `9 // 2 = 4`, not at `ceil(9/2) = 5`: the first card carries the first
*four* member sentences. -/
theorem C2_build_cards_floor_split :
    AgPkg.build_cards [topic9] kps9 opts9 =
      [⟨"c1", "t1", "T（第1部分）", ["s1", "s2", "s3", "s4"]⟩,
       ⟨"c2", "t1", "T（第2部分）", ["s5", "s6", "s7", "s8", "s9"]⟩] ∧
    (9 + 1) / 2 = 5 ∧
    (AgPkg.build_cards [topic9] kps9 opts9).map (fun c => c.bullets.length) =
      [4, 5] :=
  ⟨by decide, by decide, by decide⟩

/-- C6 counterexample: `agent_a/segmenter.segment_text` numbers ids from
zero — the first paragraph's id is `"p0"`, not `"p1"`. -/
theorem C6_segment_text_ids_zero_based :
    AgPkg.segment_text "hi" = [⟨"p0", "hi", none, none, 0⟩] ∧
    ("p0" : String) ≠ "p1" :=
  ⟨by decide, by decide⟩

/-- C3 counterexample: neither `agent_a/segmenter.segment_text` nor the
learn2cards segmentation behind the `generate` CLI emits the heading of the
example file as a paragraph — both produce exactly the two body paragraphs
(so the deck's `stats.totalParagraphs` is 2, not 3). -/
theorem C3_heading_not_emitted :
    (AgPkg.segment_text exMd).map AgPkg.Paragraph.text =
      ["First paragraph about cats.", "Second paragraph about dogs."] ∧
    ((AgPkg.segment_text exMd).map AgPkg.Paragraph.text).contains "Title" = false ∧
    (L2c._split_paragraphs ⟨L2c.stripNl (PyStr.normNewlinesL exMd.data)⟩).map
        L2c.ProtoPara.text =
      ["First paragraph about cats.", "Second paragraph about dogs."] ∧
    (L2c.mk_paragraph_objs 0
        (L2c._split_paragraphs ⟨L2c.stripNl (PyStr.normNewlinesL exMd.data)⟩)).length =
      2 ∧
    (2 : Nat) ≠ 3 :=
  ⟨by decide, by decide, by decide, by decide, by decide⟩

/-- C10: the CLI deck builder un-escapes `\n`, `\r`, `\"`, `\\` before any
segmentation: a text containing the two characters backslash-`n` and a text
containing a real newline become identical after `decode_cli_text`, hence
`build_deck` produces identical decks for them, and a genuine backslash
escape in content (`dir\name`) is silently altered. -/
theorem C10_decode_cli_text_rewrites_input :
    ("line one\\nline two" : String) ≠ "line one\nline two" ∧
    MainPy.decode_cli_text "line one\\nline two" =
      MainPy.decode_cli_text "line one\nline two" ∧
    (∀ (th : ℚ) (mt mb : Nat),
      MainPy.build_deck "line one\\nline two" th mt mb =
        MainPy.build_deck "line one\nline two" th mt mb) ∧
    MainPy.decode_cli_text "dir\\name" ≠ "dir\\name" := by
  refine ⟨by decide, by decide, ?_, by decide⟩
  intro th mt mb
  show MainPy.build_deck_rest (MainPy.decode_cli_text "line one\\nline two") th mt mb =
    MainPy.build_deck_rest (MainPy.decode_cli_text "line one\nline two") th mt mb
  rw [show MainPy.decode_cli_text "line one\\nline two" =
    MainPy.decode_cli_text "line one\nline two" from by decide]

/-- C9: the validator is a total function on arbitrary JSON values (the
embedding of `validate_deck` assigns a `ValidationResult` to *every* `Json`,
i.e. malformed documents are reported, never raised on); its `ok` flag is
true exactly when the issue list is empty, and a value that is not an object
at all short-circuits with the single structural issue. -/
theorem C9_validator_never_raises :
    ∀ j : Json,
      ((L2c.validate_deck j).ok = true ↔ (L2c.validate_deck j).errors = []) ∧
      (j.isObj = false →
        L2c.validate_deck j = ⟨false, ["根物件必須是 JSON object。"]⟩) := by
  intro j
  refine ⟨?_, ?_⟩
  · cases j with
    | obj kvs =>
      simp only [L2c.validate_deck]
      split
      next h => simp_all [List.isEmpty_iff]
      next h => simp_all [List.isEmpty_iff]
    | null => simp [L2c.validate_deck]
    | b v => simp [L2c.validate_deck]
    | i v => simp [L2c.validate_deck]
    | f v => simp [L2c.validate_deck]
    | s v => simp [L2c.validate_deck]
    | arr items => simp [L2c.validate_deck]
  · intro hnob
    cases j with
    | obj kvs => simp [Json.isObj] at hnob
    | null => rfl
    | b v => rfl
    | i v => rfl
    | f v => rfl
    | s v => rfl
    | arr items => rfl

/-- C9 witness: a concrete non-object input. -/
theorem C9_validator_never_raises_witness :
    Json.isObj (Json.s "not a deck") = false ∧
    L2c.validate_deck (Json.s "not a deck") =
      ⟨false, ["根物件必須是 JSON object。"]⟩ :=
  ⟨rfl, (C9_validator_never_raises (Json.s "not a deck")).2 rfl⟩

theorem addInto_replicate_zero (c : List ℝ) :
    L2c.addInto (List.replicate c.length (0:ℝ)) c = c := by
  induction c with
  | nil => rfl
  | cons x xs ih => simp [L2c.addInto, List.replicate_succ, ih]

theorem addInto_eq_zipWith : ∀ (a b : List ℝ), a.length = b.length →
    L2c.addInto a b = List.zipWith (· + ·) a b
  | [], [], _ => rfl
  | [], _ :: _, h => by simp at h
  | _ :: _, [], h => by simp at h
  | a :: as, b :: bs, h => by
    simp only [L2c.addInto, List.zipWith_cons_cons]
    exact congrArg _ (addInto_eq_zipWith as bs (by simpa using h))

theorem c7_step1 : AgPkg._update_centroid [(3:ℝ)/5, 4/5] [3/5, -(4/5)] 1 = [1, 0] := by
  unfold AgPkg._update_centroid AgPkg.vnorm
  norm_num
  rw [show (9:ℝ) = 3^2 by norm_num, show (25:ℝ) = 5^2 by norm_num,
      Real.sqrt_sq (by norm_num : (0:ℝ) ≤ 3), Real.sqrt_sq (by norm_num : (0:ℝ) ≤ 5)]
  norm_num

/-- C7 counterexample: for the three unit embeddings `(3/5, 4/5)`,
`(3/5, -4/5)`, `(0, 1)` added one at a time, the online centroid
(`_update_centroid` folded as `cluster_topics` does) differs from the
L2-normalized arithmetic mean (`_mean_vector`) of the three vectors: the
online form forgets that the first two members' sum had norm 6/5, not 2. -/
theorem C7_online_update_differs_from_mean :
    AgPkg.centroid_after_additions [(3:ℝ)/5, 4/5] [[3/5, -(4/5)], [0, 1]] ≠
      L2c._mean_vector [[(3:ℝ)/5, 4/5], [3/5, -(4/5)], [0, 1]] := by
  intro heq
  have h0 : AgPkg.centroid_after_additions [(3:ℝ)/5, 4/5] [[3/5, -(4/5)], [0, 1]] =
      AgPkg._update_centroid (AgPkg._update_centroid [(3:ℝ)/5, 4/5] [3/5, -(4/5)] 1)
        [0, 1] 2 := rfl
  rw [h0, c7_step1] at heq
  simp only [AgPkg._update_centroid, AgPkg.vnorm, L2c._mean_vector, L2c._l2_normalize,
    L2c.addInto, List.foldl_cons, List.foldl_nil, List.replicate, List.map_cons,
    List.map_nil, List.sum_cons, List.sum_nil, List.length_cons, List.length_nil,
    gt_iff_lt, Real.sqrt_pos] at heq
  norm_num at heq
  obtain ⟨e1, e2⟩ := heq
  have h5 : (0:ℝ) < Real.sqrt 5 := Real.sqrt_pos.mpr (by norm_num)
  have h9 : (0:ℝ) < Real.sqrt 9 := Real.sqrt_pos.mpr (by norm_num)
  have h61 : (0:ℝ) < Real.sqrt 61 := Real.sqrt_pos.mpr (by norm_num)
  have h225 : (0:ℝ) < Real.sqrt 225 := Real.sqrt_pos.mpr (by norm_num)
  field_simp at e1 e2
  nlinarith [e1, e2, mul_pos h9 h61, mul_pos h225 h5]

/-- C7 amended: the online update *is* equivalent to renormalizing the mean
for the very first addition (one existing member, `n = 1`): adding `v` to a
topic whose centroid is `c` gives exactly the L2-normalized mean of `[c, v]`. -/
theorem C7_first_addition_equivalent (c v : List ℝ) (h : c.length = v.length) :
    AgPkg._update_centroid c v 1 = L2c._mean_vector [c, v] := by
  unfold AgPkg._update_centroid L2c._mean_vector L2c._l2_normalize AgPkg.vnorm
  simp only [List.foldl_cons, List.foldl_nil, addInto_replicate_zero,
    addInto_eq_zipWith c v h, List.length_cons, List.length_nil]
  have hfun : List.zipWith (fun (ci x : ℝ) => (ci * ((1:Nat):ℝ) + x) / (((1:Nat):ℝ) + 1)) c v =
      List.map (fun x => x * (((0+1+1 : Nat) : ℝ))⁻¹) (List.zipWith (fun x1 x2 => x1 + x2) c v) := by
    rw [List.map_zipWith]
    congr 1
    funext a b
    push_cast
    ring
  rw [hfun]
  by_cases hp :
      0 < (List.map (fun x => x * x)
        (List.map (fun x => x * (((0+1+1 : Nat) : ℝ))⁻¹)
          (List.zipWith (fun x1 x2 => x1 + x2) c v))).sum
  · rw [if_pos (Real.sqrt_pos.mpr hp), if_neg (not_le.mpr hp)]
    simp only [div_eq_mul_inv]
  · rw [if_neg (by simpa using Real.sqrt_pos.not.mpr hp), if_pos (le_of_not_lt hp)]

/-- C7 witness: the equivalence instantiated at two concrete unit vectors. -/
theorem C7_first_addition_equivalent_witness :
    ([(1:ℝ), 0] : List ℝ).length = ([(0:ℝ), 1] : List ℝ).length ∧
    AgPkg._update_centroid [(1:ℝ), 0] [(0:ℝ), 1] 1 =
      L2c._mean_vector [[(1:ℝ), 0], [(0:ℝ), 1]] :=
  ⟨rfl, C7_first_addition_equivalent [(1:ℝ), 0] [(0:ℝ), 1] rfl⟩

/-- C2 amended: in `agent_a/cards.build_cards` a single topic still yields 1
card (≤ 8 members) or 2 cards (> 8 members) over two contiguous halves, but
the cut is `len // 2` (floor), so the *second* half gets the extra member;
the learn2cards `_generate_cards` cuts at `(len + 1) // 2` (ceiling), giving
a nine-member topic bullets 5 + 4. -/
theorem C2_card_split_rule_amended :
    (∀ (t : AgPkg.Topic) (kps : List AgPkg.Keypoint) (opts : AgPkg.PipelineOptions),
      (AgPkg.build_cards [t] kps opts).length =
        if t.memberIds.length > 8 then 2 else 1) ∧
    (∀ (t : AgPkg.Topic) (kps : List AgPkg.Keypoint) (opts : AgPkg.PipelineOptions),
      t.memberIds.length > 8 →
      AgPkg.build_cards [t] kps opts =
        [⟨"c1", t.id, t.title ++ "（第1部分）",
          AgPkg.bullets_for kps opts (t.memberIds.take (t.memberIds.length / 2))⟩,
         ⟨"c2", t.id, t.title ++ "（第2部分）",
          AgPkg.bullets_for kps opts (t.memberIds.drop (t.memberIds.length / 2))⟩]) ∧
    L2c._generate_cards [topic9L] [] kps9L L2c.Lang2.zh 10 10 =
      Except.ok
        [⟨"c1", "t1", "T（1/2）", ["s1", "s2", "s3", "s4", "s5"]⟩,
         ⟨"c2", "t1", "T（2/2）", ["s6", "s7", "s8", "s9"]⟩] := by
  refine ⟨?_, ?_, by decide⟩
  · intro t kps opts
    simp only [AgPkg.build_cards, List.foldl_cons, List.foldl_nil, List.nil_append]
    by_cases h : t.memberIds.length > 8
    · rw [if_pos h, if_pos h]
      rfl
    · rw [if_neg h, if_neg h]
      rfl
  · intro t kps opts h
    simp only [AgPkg.build_cards, List.foldl_cons, List.foldl_nil, List.nil_append,
      if_pos h]
    rfl

/-- C2 witness: the split rule applied to the concrete nine-member topic. -/
theorem C2_card_split_rule_amended_witness :
    (AgPkg.build_cards [topic9] kps9 opts9).length =
      (if topic9.memberIds.length > 8 then 2 else 1) ∧
    topic9.memberIds.length > 8 ∧
    AgPkg.build_cards [topic9] kps9 opts9 =
      [⟨"c1", topic9.id, topic9.title ++ "（第1部分）",
        AgPkg.bullets_for kps9 opts9
          (topic9.memberIds.take (topic9.memberIds.length / 2))⟩,
       ⟨"c2", topic9.id, topic9.title ++ "（第2部分）",
        AgPkg.bullets_for kps9 opts9
          (topic9.memberIds.drop (topic9.memberIds.length / 2))⟩] :=
  ⟨C2_card_split_rule_amended.1 topic9 kps9 opts9, by decide,
   C2_card_split_rule_amended.2.1 topic9 kps9 opts9 (by decide)⟩

/-- C3 amended: `agent_a.py`'s `split_paragraphs` *does* emit the heading as
its own paragraph (3 paragraphs on the example, with `headingLevel` and a
`sectionPath` including the heading itself), while `agent_a/segmenter.py`
and the learn2cards segmentation used by the `generate` CLI do not (2
paragraphs, hence `stats.totalParagraphs = 2`). -/
theorem C3_heading_paragraph_amended :
    AgOne.split_paragraphs exMd =
      [⟨"p1", 0, "Title", some 1, some ["Title"]⟩,
       ⟨"p2", 1, "First paragraph about cats.", none, some ["Title"]⟩,
       ⟨"p3", 2, "Second paragraph about dogs.", none, some ["Title"]⟩] ∧
    (AgOne.split_paragraphs exMd).length = 3 ∧
    (AgPkg.segment_text exMd).length = 2 ∧
    (L2c.mk_paragraph_objs 0
        (L2c._split_paragraphs ⟨L2c.stripNl (PyStr.normNewlinesL exMd.data)⟩)).length =
      2 :=
  ⟨by decide, by decide, by decide, by decide⟩

theorem idsNumbered_segFlush (st : AgPkg.SegSt) (h : idsNumbered st.paragraphs) :
    idsNumbered (AgPkg.segFlush st).paragraphs := by
  obtain ⟨h1, h2⟩ := h
  simp only [AgPkg.segFlush]
  split
  · exact ⟨h1, h2⟩
  · split
    · exact ⟨h1, h2⟩
    · refine ⟨?_, ?_⟩
      · simp [List.range_succ, h1]
      · simp [List.range_succ, h2]

theorem idsNumbered_segLoop : ∀ (lines : List (List Char)) (st : AgPkg.SegSt),
    idsNumbered st.paragraphs → idsNumbered (AgPkg.segLoop lines st).paragraphs
  | [], st, h => idsNumbered_segFlush st h
  | line :: rest, st, h => by
    rw [AgPkg.segLoop]
    split
    · exact idsNumbered_segLoop rest _ (idsNumbered_segFlush st h)
    · split
      · exact idsNumbered_segLoop rest _ (idsNumbered_segFlush st h)
      · split
        · exact idsNumbered_segLoop rest _ (idsNumbered_segFlush st h)
        · split
          · split
            · exact idsNumbered_segLoop rest _ h
            · exact idsNumbered_segLoop rest _ h
          · exact idsNumbered_segLoop rest _ h

theorem mk_paragraph_objs_get : ∀ (protos : List L2c.ProtoPara) (k i : Nat)
    (h : i < (L2c.mk_paragraph_objs k protos).length),
    ((L2c.mk_paragraph_objs k protos).get ⟨i, h⟩).idx = k + i ∧
    ((L2c.mk_paragraph_objs k protos).get ⟨i, h⟩).id = "p" ++ toString (k + i + 1)
  | [], _, i, h => absurd h (by simp [L2c.mk_paragraph_objs])
  | p :: ps, k, 0, h => by
    constructor
    · simp [L2c.mk_paragraph_objs]
    · simp [L2c.mk_paragraph_objs]
  | p :: ps, k, i + 1, h => by
    have h' : i < (L2c.mk_paragraph_objs (k + 1) ps).length := by
      simpa [L2c.mk_paragraph_objs] using h
    obtain ⟨ih1, ih2⟩ := mk_paragraph_objs_get ps (k + 1) i h'
    constructor
    · rw [show k + (i + 1) = k + 1 + i by omega]
      exact ih1
    · rw [show k + (i + 1) + 1 = k + 1 + i + 1 by omega]
      exact ih2

/-- C6 amended: `paragraphs[i].idx = i` holds in both variants, but ids are
0-based `"p0", "p1", …` in `agent_a/segmenter.segment_text` and 1-based
`"p1", "p2", …` in the learn2cards `analyze_text` paragraph construction
(`mk_paragraph_objs 0`). -/
theorem C6_paragraph_ids_amended :
    (∀ text : String,
      (AgPkg.segment_text text).map AgPkg.Paragraph.idx =
        List.range (AgPkg.segment_text text).length ∧
      (AgPkg.segment_text text).map AgPkg.Paragraph.id =
        (List.range (AgPkg.segment_text text).length).map
          (fun i => "p" ++ toString i)) ∧
    (∀ (protos : List L2c.ProtoPara) (i : Nat)
        (h : i < (L2c.mk_paragraph_objs 0 protos).length),
      ((L2c.mk_paragraph_objs 0 protos).get ⟨i, h⟩).idx = i ∧
      ((L2c.mk_paragraph_objs 0 protos).get ⟨i, h⟩).id =
        "p" ++ toString (i + 1)) := by
  constructor
  · intro text
    exact idsNumbered_segLoop
      (PyStr.splitOnCharL '\n' (PyStr.normNewlinesL text.data))
      ⟨[], [], [], none⟩ ⟨rfl, rfl⟩
  · intro protos i h
    have := mk_paragraph_objs_get protos 0 i h
    simpa using this

/-- C6 witness: both numbering facts at concrete inputs. -/
theorem C6_paragraph_ids_amended_witness :
    ((AgPkg.segment_text "hi").map AgPkg.Paragraph.idx =
        List.range (AgPkg.segment_text "hi").length ∧
      (AgPkg.segment_text "hi").map AgPkg.Paragraph.id =
        (List.range (AgPkg.segment_text "hi").length).map
          (fun i => "p" ++ toString i)) ∧
    (((L2c.mk_paragraph_objs 0 [⟨"天", none, none⟩]).get ⟨0, by decide⟩).idx = 0 ∧
      ((L2c.mk_paragraph_objs 0 [⟨"天", none, none⟩]).get ⟨0, by decide⟩).id =
        "p" ++ toString (0 + 1)) :=
  ⟨C6_paragraph_ids_amended.1 "hi",
   C6_paragraph_ids_amended.2 [⟨"天", none, none⟩] 0 (by decide)⟩
